import Mathlib

/-!
# Voice assistant web client: the interaction controller of `web/static/js/app.js`

A shallow embedding of class `VoiceAssistant`.  The controller object and the part of the
document it touches are one record; every method is a function on that record.  An
asynchronous method is run to completion, the settlement of each `fetch` it awaits being an
argument (`FetchResult`), and the reading of `Date.now()` being an argument as well.

What the browser supplies and the source only calls is a parameter (`Runtime`): `JSON.parse`
and the wording of the two `TypeError`s that the engine can raise here (a property of `null`
is read; an object has no primitive value).

The record carries one ghost field, `log`: the DOM insertions and removals and the network
requests, in the order in which they happen.

Conventions of the embedding:

* a method that can throw returns an `Except` whose error is the `message` of the error
  thrown, with the state at that point where the method has changed it by then;
  `try`/`catch`/`finally` are the matches on that result;
* each method is one run from its first step to its last: what other submissions did before
  is in the state it starts from, and none of their steps falls between its own;
* a number is kept as the two things that can be told of it here, whether it is zero and
  how `Number::toString` renders it; the conversion of a value to a string can throw, for an
  object that has an own property `toString`;
* the body of a response that has arrived can be read (`response.text()` and the reading
  part of `response.json()` do not fail);
* the elements `conversation` and `textInput` exist; `statusIndicator` and `connectionText`
  may be missing, which is what `updateConnectionStatus` tests;
* the only elements with an id of the form `loading-...` are the placeholders in the
  conversation;
* the readings of the clock are natural numbers, rendered in decimal.
-/

namespace VoiceAssistantApp

/-! ## JavaScript values -/

/-- A number, by the two things the controller can tell of it: whether it is zero (`0` and
`-0`, the falsy numbers that `JSON.parse` returns) and the string that `Number::toString`
gives for it. -/
structure JsNumber where
  isZero : Bool
  shown : String
  deriving DecidableEq, Repr

/-- A value produced by `JSON.parse`.  An object is the list of its own properties. -/
inductive Json where
  | null : Json
  | bool : Bool → Json
  | num : JsNumber → Json
  | str : String → Json
  | arr : List Json → Json
  | obj : List (String × Json) → Json

/-- A JavaScript value as the controller sees it: `none` is `undefined`. -/
abbrev JsValue := Option Json

/-- Whether the property list holds an own property of that name. -/
def hasOwnProperty (key : String) (props : List (String × Json)) : Bool :=
  props.any fun p => p.1 == key

mutual
/-- The abstract operation `ToString` on a parsed value; `none` when it throws a `TypeError`.
An object without an own property `toString` is rendered by `Object.prototype.toString`; with
one (never callable, as it comes from JSON) neither `toString` nor `valueOf` yields a
primitive value. An array is rendered by `Array.prototype.join`. -/
def Json.toStr : Json → Option String
  | .null => some "null"
  | .bool b => some (if b then "true" else "false")
  | .num n => some n.shown
  | .str s => some s
  | .arr xs => Json.joinStr xs
  | .obj props => if hasOwnProperty "toString" props then none else some "[object Object]"
/-- The method `Array.prototype.join` with separator `,`: a `null` element renders as nothing,
any other by `ToString`. -/
def Json.joinStr : List Json → Option String
  | [] => some ""
  | [.null] => some ""
  | [x] => Json.toStr x
  | .null :: y :: ys => (Json.joinStr (y :: ys)).map fun rest => "," ++ rest
  | x :: y :: ys =>
    match Json.toStr x, Json.joinStr (y :: ys) with
    | some first, some rest => some (first ++ "," ++ rest)
    | _, _ => none
end

/-- Truthiness of a parsed value: `null`, `false`, `0` and `""` are falsy. -/
def Json.truthy : Json → Bool
  | .null => false
  | .bool b => b
  | .num n => !n.isZero
  | .str s => s != ""
  | .arr _ => true
  | .obj _ => true

/-- Truthiness of a value: `undefined` is falsy. -/
def truthy : JsValue → Bool
  | none => false
  | some j => j.truthy

/-- The string stored by `node.textContent = v`: `undefined` and `null` store the empty
string, everything else its `ToString`; `none` when that conversion throws. -/
def textContent : JsValue → Option String
  | none => some ""
  | some .null => some ""
  | some j => j.toStr

/-- Own property lookup on the property list of a parsed object. -/
def lookupProp (key : String) : List (String × Json) → JsValue
  | [] => none
  | (k, v) :: rest => if k = key then some v else lookupProp key rest

/-- Reading `v.key` for a parsed value `v`: reading from `null` raises a `TypeError`
(`none`); a primitive or an array has no such property (`undefined`). -/
def Json.getProp (key : String) : Json → Option JsValue
  | .null => none
  | .obj props => some (lookupProp key props)
  | _ => some none

/-- The expression `a || b` for a string `a`: the empty string is falsy. -/
def orElse (a b : String) : String := if a = "" then b else a

/-! ## Strings -/

/-- White space and line terminators in the sense of `String.prototype.trim`. -/
def isJsWhitespace (c : Char) : Bool :=
  let n := c.toNat
  n = 0x09 || n = 0x0A || n = 0x0B || n = 0x0C || n = 0x0D || n = 0x20 || n = 0xA0 ||
  n = 0x1680 || (0x2000 ≤ n && n ≤ 0x200A) || n = 0x2028 || n = 0x2029 || n = 0x202F ||
  n = 0x205F || n = 0x3000 || n = 0xFEFF

/-- The method `String.prototype.trim`. -/
def jsTrim (s : String) : String :=
  String.mk ((s.data.dropWhile isJsWhitespace).reverse.dropWhile isJsWhitespace).reverse

/-- Search of `pat` in a list of characters, position by position. -/
def includesChars (pat : List Char) : List Char → Bool
  | [] => pat.isEmpty
  | c :: cs => pat.isPrefixOf (c :: cs) || includesChars pat cs

/-- The method `String.prototype.includes`. -/
def includes (s pat : String) : Bool := includesChars pat.data s.data

/-- The proposition that `pat` occurs in `s` as a contiguous run of characters. -/
def Contains (s pat : String) : Prop := pat.data <:+: s.data

/-- Rendering of a non-negative integer number in a template literal or a `+` with a
string. -/
def numberToString (n : Nat) : String := Nat.repr n

/-! ## The document and the controller -/

/-- A child of the conversation element. -/
inductive Node where
  /-- The one-time welcome entry, of class `welcome-message`. -/
  | welcome : Node
  /-- An entry built by `addMessage`: class `message <type>`, the text, the text of the
  intent badge when there is one, and the play button when there is one: the string that a
  click on it appends to the base URL, `none` when turning the reference into a string
  throws. -/
  | message (type text : String) (intent : Option String)
      (audioUrl : Option (Option String)) : Node
  /-- A placeholder built by `showLoadingMessage`: class `message assistant loading-message`
  and the given element id. -/
  | loading (id : String) : Node
  deriving DecidableEq, Repr

/-- Whether the node has class `loading-message`. -/
def Node.isLoading : Node → Bool
  | .loading _ => true
  | _ => false

/-- Whether the node is of class `message user`. -/
def Node.isUser : Node → Bool
  | .message type _ _ _ => type == "user"
  | _ => false

/-- Whether the node carries the element id `id`. -/
def Node.hasId (id : String) : Node → Bool
  | .loading i => i == id
  | _ => false

/-- What the controller does to the outside: a network request, an insertion at the end of
the conversation, the removal of a node from it. -/
inductive Event where
  | fetch (method url : String) : Event
  | append (n : Node) : Event
  | remove (n : Node) : Event
  deriving DecidableEq, Repr

/-- The fields of a `VoiceAssistant` object that the submission paths read or write, with
the state of the elements they reach. -/
structure VoiceAssistant where
  /-- The field `audioChunks`: the recorded segments, each a sequence of bytes. -/
  audioChunks : List (List Nat)
  /-- The field `lastUserMessage`: `none` is `null`. -/
  lastUserMessage : Option String
  /-- The field `apiBaseUrl`. -/
  apiBaseUrl : String
  /-- The property `textInput.value`. -/
  textInput : String
  /-- The children of the element `conversation`, in document order. -/
  conversation : List Node
  /-- The class list of the element `statusIndicator`; `none` when the document has no such
  element. -/
  statusIndicator : Option (List String)
  /-- The text of the element `connectionText`; `none` when the document has no such
  element. -/
  connectionText : Option String
  /-- Ghost: the events so far, oldest first. -/
  log : List Event
  deriving DecidableEq, Repr

/-- The connection status shown to the user. -/
inductive ConnectionStatus where
  | unknown | connected | disconnected
  deriving DecidableEq, Repr

/-- The connection status that the status indicator displays, when the element exists. -/
def connectionStatus (s : VoiceAssistant) : Option ConnectionStatus :=
  s.statusIndicator.map fun classes =>
    if "connected" ∈ classes then .connected
    else if "disconnected" ∈ classes then .disconnected
    else .unknown

/-- How an awaited `fetch` settles: the promise rejects with an error of the given message,
or resolves to a response with a status code and a body. -/
inductive FetchResult where
  | rejects (message : String) : FetchResult
  | responds (status : Nat) (body : String) : FetchResult
  deriving DecidableEq, Repr

/-- The property `response.ok`: the status is in the range 200 to 299. -/
def statusOk (status : Nat) : Bool := 200 ≤ status && status ≤ 299

/-- What the browser supplies. -/
structure Runtime where
  /-- The function `JSON.parse` (also behind `response.json()`): the parsed value, or the
  message of the `SyntaxError`. -/
  jsonParse : String → Except String Json
  /-- The message of the `TypeError` raised when a property of `null` is read. -/
  nullReadMessage : String
  /-- The message of the `TypeError` raised when an object has no primitive value. -/
  convertMessage : String

/-! ## The renderer -/

/-- The steps `querySelector('.welcome-message')` and `remove()` of lines 285-288 and
362-365: the first welcome entry, if any, leaves the conversation. -/
def removeWelcome (s : VoiceAssistant) : VoiceAssistant :=
  if Node.welcome ∈ s.conversation then
    { s with conversation := s.conversation.erase Node.welcome,
             log := s.log ++ [Event.remove Node.welcome] }
  else s

/-- The method `addMessage(type, text, intent = null, audioUrl = null)`: the new state, or
the message of the `TypeError` thrown by a conversion to a string together with the state at
that point. The welcome entry goes first (lines 285-288); the badge text is set at line 320
and the message text at line 329, each a conversion; the entry is inserted at line 347. -/
def addMessage (rt : Runtime) (type : String) (text intent audioUrl : JsValue)
    (s : VoiceAssistant) : Except (String × VoiceAssistant) VoiceAssistant :=
  let s1 := removeWelcome s
  let badge : Option (Option String) :=
    if truthy intent && type == "assistant" then (textContent intent).map some else some none
  match badge, textContent text with
  | some badge, some shown =>
    let action := if truthy audioUrl && type == "assistant" then some (textContent audioUrl)
      else none
    let messageDiv := Node.message type shown badge action
    .ok { s1 with conversation := s1.conversation ++ [messageDiv],
                  log := s1.log ++ [Event.append messageDiv] }
  | _, _ => .error (rt.convertMessage, s1)

/-- The state in which a call ends, whether it returns or throws. -/
def endState : Except (String × VoiceAssistant) VoiceAssistant → VoiceAssistant
  | .ok t => t
  | .error (_, t) => t

/-- The method `showLoadingMessage()`, with the reading `now` of `Date.now()`: the new state
and the id returned. -/
def showLoadingMessage (now : Nat) (s : VoiceAssistant) : VoiceAssistant × String :=
  let s1 := removeWelcome s
  let loadingId := "loading-" ++ numberToString now
  let messageDiv := Node.loading loadingId
  ({ s1 with conversation := s1.conversation ++ [messageDiv],
             log := s1.log ++ [Event.append messageDiv] }, loadingId)

/-- The call `document.getElementById(id)`: the first node with that id.  The elements with
an id of the form `loading-...` are the children of the conversation. -/
def getElementById (id : String) (s : VoiceAssistant) : Option Node :=
  s.conversation.find? (Node.hasId id)

/-- The branch of `removeLoadingMessage` taken when the argument is falsy:
`querySelectorAll('.loading-message')`, each match removed. -/
def removeAllLoading (s : VoiceAssistant) : VoiceAssistant :=
  let loadingMsgs := s.conversation.filter Node.isLoading
  { s with conversation := s.conversation.filter (fun n => !n.isLoading),
           log := s.log ++ loadingMsgs.map Event.remove }

/-- The method `removeLoadingMessage(loadingId = null)`: `none` is the call without
argument. -/
def removeLoadingMessage (loadingId : Option String) (s : VoiceAssistant) : VoiceAssistant :=
  match loadingId with
  | some id =>
    if id ≠ "" then
      match getElementById id s with
      | some loadingMsg =>
        { s with conversation := s.conversation.erase loadingMsg,
                 log := s.log ++ [Event.remove loadingMsg] }
      | none => s
    else removeAllLoading s
  | none => removeAllLoading s

/-! ## The connection health monitor -/

/-- The method `updateConnectionStatus(status, message)`. -/
def updateConnectionStatus (status : String) (s : VoiceAssistant) : VoiceAssistant :=
  match s.statusIndicator, s.connectionText with
  | some classes, some _ =>
    let cleared := classes.filter fun c => c != "connected" && c != "disconnected"
    if status = "connected" then
      { s with statusIndicator := some (cleared ++ ["connected"]),
               connectionText := some "Connected" }
    else if status = "disconnected" then
      { s with statusIndicator := some (cleared ++ ["disconnected"]),
               connectionText := some "Disconnected" }
    else
      { s with statusIndicator := some cleared, connectionText := some "Connecting..." }
  | _, _ => s

/-- The method `checkBackendConnection()`, `probe` being the settlement of the request to
`/health`: the new state, and `true` or the message of the error thrown. -/
def checkBackendConnection (rt : Runtime) (probe : FetchResult) (s : VoiceAssistant) :
    VoiceAssistant × Except String Bool :=
  let s1 := { s with log := s.log ++ [Event.fetch "GET" (s.apiBaseUrl ++ "/health")] }
  let unreachable : VoiceAssistant × Except String Bool :=
    (updateConnectionStatus "disconnected" s1,
      .error ("Cannot reach backend at " ++ s.apiBaseUrl ++ ". Is the server running?"))
  match probe with
  | .rejects _ => unreachable
  | .responds status body =>
    if !statusOk status then unreachable
    else
      match rt.jsonParse body with
      | .error _ => unreachable
      | .ok _ => (updateConnectionStatus "connected" s1, .ok true)

/-! ## The orchestrator -/

/-- Truthiness of the field `lastUserMessage`: `null` and the empty string are falsy. -/
def pendingEcho (s : VoiceAssistant) : Bool :=
  match s.lastUserMessage with
  | some m => m != ""
  | none => false

/-- The method `handleResponse(data)`: the new state, or the message of the error thrown
and the state at that point. Reading a property of `null` throws at once; a conversion in
`addMessage` throws inside that call. -/
def handleResponse (rt : Runtime) (data : Json) (s : VoiceAssistant) :
    Except (String × VoiceAssistant) VoiceAssistant :=
  match data.getProp "text", data.getProp "response", data.getProp "intent",
      data.getProp "audio_url" with
  | some text, some response, some intent, some audioUrl =>
    let echoed : Except (String × VoiceAssistant) VoiceAssistant :=
      if truthy text && !pendingEcho s then
        addMessage rt "user" text (some .null) (some .null) s
      else .ok s
    match echoed with
    | .error thrown => .error thrown
    | .ok s1 =>
      match addMessage rt "assistant" response intent audioUrl s1 with
      | .error thrown => .error thrown
      | .ok s2 =>
        let s3 := updateConnectionStatus "connected" s2
        .ok { s3 with lastUserMessage := none }
  | _, _, _, _ => .error (rt.nullReadMessage, s)

/-- Lines 155-163, and again lines 201-209: the message of the error thrown for a reply
that is not `ok`, from its status and the text of its body. At `new Error(errorMessage)` a
`detail` that is not a string is converted to one, and the `TypeError` of a conversion that
throws takes the place of the error. -/
def httpErrorMessage (rt : Runtime) (status : Nat) (errorText : String) : String :=
  let errorMessage := "HTTP error! status: " ++ numberToString status
  match rt.jsonParse errorText with
  | .ok errorJson =>
    match errorJson.getProp "detail" with
    | some (some detail) =>
      if detail.truthy then
        match detail.toStr with
        | some message => message
        | none => rt.convertMessage
      else errorMessage
    | some none => errorMessage
    | none => orElse errorText errorMessage
  | .error _ => orElse errorText errorMessage

/-- The body of the `try` of `sendVoiceMessage` and of `sendTextMessage` after the request
has been issued: the state after `handleResponse`, or the message of the error thrown and
the state at that point. -/
def settle (rt : Runtime) (reply : FetchResult) (s : VoiceAssistant) :
    Except (String × VoiceAssistant) VoiceAssistant :=
  match reply with
  | .rejects message => .error (message, s)
  | .responds status body =>
    if !statusOk status then .error (httpErrorMessage rt status body, s)
    else
      match rt.jsonParse body with
      | .error message => .error (message, s)
      | .ok data => handleResponse rt data s

/-- The method `convertToWav(audioBlob)`. -/
def convertToWav (audioBlob : List Nat) : List Nat := audioBlob

/-- The method `sendVoiceMessage(audioBlob)`, `reply` being the settlement of the request
to `/api/voice/transcribe`. The call of `addMessage` in the `catch` block has a string for
its text and no intent: it returns. -/
def sendVoiceMessage (rt : Runtime) (_audioBlob : List Nat) (reply : FetchResult)
    (s : VoiceAssistant) : VoiceAssistant :=
  let s1 :=
    { s with log := s.log ++ [Event.fetch "POST" (s.apiBaseUrl ++ "/api/voice/transcribe")] }
  match settle rt reply s1 with
  | .ok s2 => s2
  | .error (message, s2) =>
    let errorMsg := orElse message "Unknown error occurred"
    endState (addMessage rt "assistant"
      (some (.str ("Sorry, I encountered an error: " ++ errorMsg ++
        ". Please check the console for details.")))
      (some .null) (some .null) s2)

/-- The `catch` block of `sendTextMessage`. -/
def sendTextCatch (rt : Runtime) (message : String) (s : VoiceAssistant) : VoiceAssistant :=
  let errorMsg := orElse message "Unknown error occurred"
  if includes errorMsg "Failed to fetch" || includes errorMsg "NetworkError" then
    endState (addMessage rt "assistant"
      (some (.str ("Cannot connect to backend at " ++ s.apiBaseUrl ++
        ". Please make sure the backend server is running on port 8000.")))
      (some .null) (some .null) s)
  else
    endState (addMessage rt "assistant"
      (some (.str ("Sorry, I encountered an error: " ++ errorMsg ++
        ". Please check the console for details.")))
      (some .null) (some .null) s)

/-- The method `sendTextMessage()`: `now` is the reading of `Date.now()`, `probe` the
settlement of the request to `/health`, `reply` that of the request to `/api/text/process`
(awaited only when the probe succeeds). -/
def sendTextMessage (rt : Runtime) (now : Nat) (probe reply : FetchResult)
    (s : VoiceAssistant) : VoiceAssistant :=
  let text := jsTrim s.textInput
  if text = "" then s
  else
    let s1 := endState (addMessage rt "user" (some (.str text)) (some .null) (some .null) s)
    let s2 := { s1 with lastUserMessage := some text, textInput := "" }
    let (s3, loadingId) := showLoadingMessage now s2
    let s6 :=
      match checkBackendConnection rt probe s3 with
      | (s4, .error message) => sendTextCatch rt message s4
      | (s4, .ok _) =>
        let s5 :=
          { s4 with log := s4.log ++ [Event.fetch "POST" (s4.apiBaseUrl ++ "/api/text/process")] }
        match settle rt reply s5 with
        | .ok s6 => s6
        | .error (message, s6) => sendTextCatch rt message s6
    removeLoadingMessage (some loadingId) s6

/-- The `catch` block of `processRecording`. -/
def processRecordingCatch (rt : Runtime) (message : String) (s : VoiceAssistant) :
    VoiceAssistant :=
  let errorMsg := orElse message "Unknown error occurred"
  let s1 := removeLoadingMessage none s
  endState (addMessage rt "assistant"
    (some (.str ("Sorry, I encountered an error processing your voice: " ++ errorMsg ++
      ". Please try again.")))
    (some .null) (some .null) s1)

/-- The method `processRecording()`: `now` is the reading of `Date.now()`, `probe` the
settlement of the request to `/health`, `reply` that of the request to
`/api/voice/transcribe` (each awaited only when the run gets that far). -/
def processRecording (rt : Runtime) (now : Nat) (probe reply : FetchResult)
    (s : VoiceAssistant) : VoiceAssistant :=
  let audioBlob := s.audioChunks.flatten
  if audioBlob.length = 0 then processRecordingCatch rt "No audio data recorded" s
  else
    let wavBlob := convertToWav audioBlob
    match checkBackendConnection rt probe s with
    | (s1, .error message) => processRecordingCatch rt message s1
    | (s1, .ok _) =>
      let (s2, loadingId) := showLoadingMessage now s1
      let s3 := sendVoiceMessage rt wavBlob reply s2
      removeLoadingMessage (some loadingId) s3

/-- The handler `ondataavailable` installed by `startRecording` (lines 76-80). -/
def ondataavailable (data : List Nat) (s : VoiceAssistant) : VoiceAssistant :=
  if data.length > 0 then { s with audioChunks := s.audioChunks ++ [data] } else s

/-! ## Observations on the event log -/

/-- The events of a run: what `t` logged beyond the log of `s`. -/
def eventsSince (s t : VoiceAssistant) : List Event := t.log.drop s.log.length

/-- Whether the event is a network request. -/
def Event.isFetch : Event → Bool
  | .fetch _ _ => true
  | _ => false

/-- Whether the event inserts a loading placeholder. -/
def Event.isAppendLoading : Event → Bool
  | .append n => n.isLoading
  | _ => false

/-- Whether the event removes a loading placeholder. -/
def Event.isRemoveLoading : Event → Bool
  | .remove n => n.isLoading
  | _ => false

/-- Whether the event inserts a user message. -/
def Event.isAppendUser : Event → Bool
  | .append n => n.isUser
  | _ => false

/-- Whether the event inserts an entry built by `addMessage`. -/
def Event.isAppendMessage : Event → Bool
  | .append (.message _ _ _ _) => true
  | _ => false

/-! ## Auxiliary definitions for the statements -/

/-- The events of `removeWelcome` on a conversation. -/
def welcomeEvents (conversation : List Node) : List Event :=
  if Node.welcome ∈ conversation then [Event.remove Node.welcome] else []

/-- The class list that `updateConnectionStatus` leaves, from the one it finds. -/
def nextClasses (status : String) (classes : List String) : List String :=
  let cleared := classes.filter fun c => c != "connected" && c != "disconnected"
  if status = "connected" then cleared ++ ["connected"]
  else if status = "disconnected" then cleared ++ ["disconnected"]
  else cleared

/-- The text that `updateConnectionStatus` leaves. -/
def nextText (status : String) : String :=
  if status = "connected" then "Connected"
  else if status = "disconnected" then "Disconnected"
  else "Connecting..."

/-- Whether both status elements exist. -/
def hasStatusElements (s : VoiceAssistant) : Bool :=
  s.statusIndicator.isSome && s.connectionText.isSome

/-- The text rendered by the `catch` block of `sendTextMessage` for an error message. -/
def textErrorText (message base : String) : String :=
  if includes (orElse message "Unknown error occurred") "Failed to fetch" ||
      includes (orElse message "Unknown error occurred") "NetworkError" then
    "Cannot connect to backend at " ++ base ++
      ". Please make sure the backend server is running on port 8000."
  else
    "Sorry, I encountered an error: " ++ orElse message "Unknown error occurred" ++
      ". Please check the console for details."

/-- The text rendered by the `catch` block of `sendVoiceMessage` for an error message. -/
def voiceErrorText (message : String) : String :=
  "Sorry, I encountered an error: " ++ orElse message "Unknown error occurred" ++
    ". Please check the console for details."

/-- The text rendered by the `catch` block of `processRecording` for an error message. -/
def recordingErrorText (message : String) : String :=
  "Sorry, I encountered an error processing your voice: " ++
    orElse message "Unknown error occurred" ++ ". Please try again."

/-- The id that `showLoadingMessage` builds from a reading of the clock. -/
def loadingIdAt (now : Nat) : String := "loading-" ++ numberToString now

/-- The health probe fails: the request rejects, the status is outside 200-299, or the body
is not JSON. -/
def probeFails (rt : Runtime) : FetchResult → Bool
  | .rejects _ => true
  | .responds status body =>
    !statusOk status || (match rt.jsonParse body with | .error _ => true | .ok _ => false)

/-- What the orchestrator relies on of the steps between the request and the removal of the
placeholder: the events from `s` to `t` hold no request and touch no placeholder, they hold
a user message only when `allowUser` is set, the placeholders and the base URL are as before,
the status elements stay, and a status `connected` stays. -/
structure Step (allowUser : Bool) (s t : VoiceAssistant) : Prop where
  log_eq : t.log = s.log ++ eventsSince s t
  no_fetch : (eventsSince s t).filter Event.isFetch = []
  no_append_loading : (eventsSince s t).filter Event.isAppendLoading = []
  no_remove_loading : (eventsSince s t).filter Event.isRemoveLoading = []
  no_user : allowUser = false → (eventsSince s t).filter Event.isAppendUser = []
  loading_mem : ∀ id, Node.loading id ∈ t.conversation ↔ Node.loading id ∈ s.conversation
  base_eq : t.apiBaseUrl = s.apiBaseUrl
  elements : hasStatusElements s = true → hasStatusElements t = true
  status : hasStatusElements s = true → connectionStatus s = some .connected →
    connectionStatus t = some .connected

/-- The state of a text submission when its request to `/api/text/process` has been issued:
the user message and the placeholder are in the conversation, the probe has succeeded. -/
def textSubmitted (rt : Runtime) (now : Nat) (s : VoiceAssistant) : VoiceAssistant :=
  let s1 := endState
    (addMessage rt "user" (some (.str (jsTrim s.textInput))) (some .null) (some .null) s)
  let s3 := (showLoadingMessage now
    { s1 with lastUserMessage := some (jsTrim s.textInput), textInput := "" }).1
  let s4 := updateConnectionStatus "connected"
    { s3 with log := s3.log ++ [Event.fetch "GET" (s3.apiBaseUrl ++ "/health")] }
  { s4 with log := s4.log ++ [Event.fetch "POST" (s4.apiBaseUrl ++ "/api/text/process")] }

/-- The state of a voice submission when its request to `/api/voice/transcribe` has been
issued: the probe has succeeded and the placeholder is in the conversation. -/
def voiceSubmitted (now : Nat) (s : VoiceAssistant) : VoiceAssistant :=
  let s1 := updateConnectionStatus "connected"
    { s with log := s.log ++ [Event.fetch "GET" (s.apiBaseUrl ++ "/health")] }
  let s2 := (showLoadingMessage now s1).1
  { s2 with log := s2.log ++ [Event.fetch "POST" (s2.apiBaseUrl ++ "/api/voice/transcribe")] }

/-- The events of a text submission up to its request to `/api/text/process`. -/
def textSubmittedEvents (now : Nat) (s : VoiceAssistant) : List Event :=
  welcomeEvents s.conversation ++
    [Event.append (Node.message "user" (jsTrim s.textInput) none none)] ++
    welcomeEvents (s.conversation.erase Node.welcome ++
      [Node.message "user" (jsTrim s.textInput) none none]) ++
    [Event.append (Node.loading (loadingIdAt now)),
      Event.fetch "GET" (s.apiBaseUrl ++ "/health"),
      Event.fetch "POST" (s.apiBaseUrl ++ "/api/text/process")]

/-- The events of a voice submission up to its request to `/api/voice/transcribe`. -/
def voiceSubmittedEvents (now : Nat) (s : VoiceAssistant) : List Event :=
  [Event.fetch "GET" (s.apiBaseUrl ++ "/health")] ++ welcomeEvents s.conversation ++
    [Event.append (Node.loading (loadingIdAt now)),
      Event.fetch "POST" (s.apiBaseUrl ++ "/api/voice/transcribe")]

/-- The step of a submission after its request has been issued: `handleResponse`, or the
`catch` block when an error is thrown. -/
def answered (rt : Runtime) (reply : FetchResult)
    (onError : String → VoiceAssistant → VoiceAssistant) (s : VoiceAssistant) :
    VoiceAssistant :=
  match settle rt reply s with
  | .ok t => t
  | .error (message, t) => onError message t

/-- The last steps of a submission whose request has been issued: `answered`, then the
removal of the placeholder. -/
def finish (rt : Runtime) (now : Nat) (reply : FetchResult)
    (onError : String → VoiceAssistant → VoiceAssistant) (s : VoiceAssistant) :
    VoiceAssistant :=
  removeLoadingMessage (some (loadingIdAt now)) (answered rt reply onError s)

/-- The message of the error thrown by `checkBackendConnection`. -/
def unreachableMessage (base : String) : String :=
  "Cannot reach backend at " ++ base ++ ". Is the server running?"

/-- The number of loading placeholders inserted between `s` and `t`. -/
def appendedLoading (s t : VoiceAssistant) : Nat :=
  ((eventsSince s t).filter Event.isAppendLoading).length

/-- The number of loading placeholders removed between `s` and `t`. -/
def removedLoading (s t : VoiceAssistant) : Nat :=
  ((eventsSince s t).filter Event.isRemoveLoading).length

/-- The number that a list of decimal digits writes. -/
def decodeDigits (cs : List Char) : Nat :=
  cs.foldl (fun acc c => acc * 10 + (c.toNat - 48)) 0

/-- The generic message of a reply that is not `ok`. -/
def genericMessage (status : Nat) : String := "HTTP error! status: " ++ numberToString status

/-! ## Concrete inputs -/

/-- A stand-in for `JSON.parse` on the bodies used in the examples. -/
def sampleParse (body : String) : Except String Json :=
  if body = "\x7b\"status\":\"healthy\"\x7d" then .ok (.obj [("status", .str "healthy")])
  else if body = "\x7b\"detail\": \"model unavailable\"\x7d" then
    .ok (.obj [("detail", .str "model unavailable")])
  else if body = "\x7b\"error\":\"x\"\x7d" then .ok (.obj [("error", .str "x")])
  else if body = "\x7b\"detail\":5\x7d" then .ok (.obj [("detail", .num ⟨false, "5"⟩)])
  else if body = "\x7b\"detail\":[\x7b\"msg\":\"field required\"\x7d]\x7d" then
    .ok (.obj [("detail", .arr [.obj [("msg", .str "field required")]])])
  else if body = "\x7b\"detail\":[]\x7d" then .ok (.obj [("detail", .arr [])])
  else if body = "\x7b\"text\":\"hello\",\"response\":\"ok\"\x7d" then
    .ok (.obj [("text", .str "hello"), ("response", .str "ok")])
  else if body = "\x7b\"response\":\"Lights on\",\"intent\":\"device_control\"\x7d" then
    .ok (.obj [("response", .str "Lights on"), ("intent", .str "device_control")])
  else .error "Unexpected token"

/-- A browser for the examples. -/
def sampleRuntime : Runtime where
  jsonParse := sampleParse
  nullReadMessage := "Cannot read properties of null"
  convertMessage := "Cannot convert object to primitive value"

/-- The controller on a freshly loaded page. -/
def freshPage : VoiceAssistant where
  audioChunks := []
  lastUserMessage := none
  apiBaseUrl := "http://localhost:8000"
  textInput := ""
  conversation := [Node.welcome]
  statusIndicator := some []
  connectionText := some "Connecting..."
  log := []

/-- A healthy reply of `/health`. -/
def healthy : FetchResult := .responds 200 "\x7b\"status\":\"healthy\"\x7d"

/-- The fresh page with a text typed into the input field. -/
def typed (text : String) : VoiceAssistant := { freshPage with textInput := text }

/-- The fresh page after a recording that delivered one segment of four bytes. -/
def recorded : VoiceAssistant := ondataavailable [82, 73, 70, 70] freshPage

/-- The state of the fresh page while a text submission of `hi` waits for its probe: lines
177-186 of `sendTextMessage` have run, with the clock at 1. -/
def textInFlight : VoiceAssistant :=
  (showLoadingMessage 1
    { endState (addMessage sampleRuntime "user" (some (.str "hi")) (some .null) (some .null)
        (typed "hi")) with
      lastUserMessage := some "hi", textInput := "" }).1

/-- The state in which the next recording ends after a text turn whose probe failed. -/
def recordedAfterFailedText : VoiceAssistant :=
  ondataavailable [82, 73, 70, 70]
    (sendTextMessage sampleRuntime 5 (.rejects "Failed to fetch") healthy (typed "hi"))

/-! # Auxiliary facts -/

/-! ## Strings -/

theorem contains_mid (a b c : String) : Contains (a ++ b ++ c) b := by
  unfold Contains
  simp only [String.data_append]
  exact List.infix_append _ _ _

theorem orElse_of_ne (a b : String) (ha : a ≠ "") : orElse a b = a := by
  simp [orElse, ha]

theorem jsTrim_of_blank (v : String) (h : ∀ c ∈ v.data, isJsWhitespace c = true) :
    jsTrim v = "" := by
  unfold jsTrim
  have h1 : v.data.dropWhile isJsWhitespace = [] := by
    rw [List.dropWhile_eq_nil_iff]; exact h
  rw [h1]; rfl

theorem loadingIdAt_ne_empty (now : Nat) : loadingIdAt now ≠ "" := by
  intro h
  have := congrArg String.length h
  simp only [loadingIdAt, String.length_append] at this
  have h8 : "loading-".length = 8 := by decide
  have h0 : "".length = 0 := by decide
  omega

/-! ## The event log -/

theorem eventsSince_of_log (s t : VoiceAssistant) (ev : List Event) (h : t.log = s.log ++ ev) :
    eventsSince s t = ev := by
  simp [eventsSince, h]

theorem welcomeEvents_filter (p : Event → Bool) (hp : p (Event.remove Node.welcome) = false)
    (c : List Node) : (welcomeEvents c).filter p = [] := by
  unfold welcomeEvents
  split <;> simp [hp]

@[simp] theorem welcomeEvents_isFetch (c : List Node) :
    (welcomeEvents c).filter Event.isFetch = [] := welcomeEvents_filter _ rfl c

@[simp] theorem welcomeEvents_isAppendMessage (c : List Node) :
    (welcomeEvents c).filter Event.isAppendMessage = [] := welcomeEvents_filter _ rfl c

@[simp] theorem welcomeEvents_isAppendUser (c : List Node) :
    (welcomeEvents c).filter Event.isAppendUser = [] := welcomeEvents_filter _ rfl c

@[simp] theorem welcomeEvents_isAppendLoading (c : List Node) :
    (welcomeEvents c).filter Event.isAppendLoading = [] := welcomeEvents_filter _ rfl c

@[simp] theorem welcomeEvents_isRemoveLoading (c : List Node) :
    (welcomeEvents c).filter Event.isRemoveLoading = [] := welcomeEvents_filter _ rfl c

theorem map_remove_filter (p : Event → Bool) (hp : ∀ n, p (Event.remove n) = false)
    (l : List Node) : (l.map Event.remove).filter p = [] := by
  simp [List.filter_eq_nil_iff, hp]

/-! ## The renderer -/

theorem removeWelcome_eq (s : VoiceAssistant) :
    removeWelcome s =
      { s with conversation := s.conversation.erase Node.welcome,
               log := s.log ++ welcomeEvents s.conversation } := by
  unfold removeWelcome welcomeEvents
  split
  · rfl
  · rename_i h
    simp [List.erase_of_not_mem h]

theorem addMessage_ok_spec (rt : Runtime) (type : String) (text intent audioUrl : JsValue)
    (s t : VoiceAssistant) (h : addMessage rt type text intent audioUrl s = .ok t) :
    ∃ shown badge action,
      t = { s with
        conversation := s.conversation.erase Node.welcome ++
          [Node.message type shown badge action],
        log := s.log ++ (welcomeEvents s.conversation ++
          [Event.append (Node.message type shown badge action)]) } := by
  simp only [addMessage] at h
  split at h
  · rename_i badge shown _ _
    simp only [Except.ok.injEq] at h
    refine ⟨shown, badge,
      if truthy audioUrl && type == "assistant" then some (textContent audioUrl) else none, ?_⟩
    rw [← h, removeWelcome_eq]
    simp only [List.append_assoc]
  · simp at h

theorem addMessage_error_spec (rt : Runtime) (type : String) (text intent audioUrl : JsValue)
    (s t : VoiceAssistant) (m : String)
    (h : addMessage rt type text intent audioUrl s = .error (m, t)) :
    t = { s with conversation := s.conversation.erase Node.welcome,
                 log := s.log ++ welcomeEvents s.conversation } := by
  simp only [addMessage] at h
  split at h
  · simp at h
  · simp only [Except.error.injEq, Prod.mk.injEq] at h
    rw [← h.2, removeWelcome_eq]

theorem addMessage_plain (rt : Runtime) (type text : String) (s : VoiceAssistant) :
    addMessage rt type (some (.str text)) (some .null) (some .null) s =
      .ok { s with
        conversation := s.conversation.erase Node.welcome ++ [Node.message type text none none],
        log := s.log ++ (welcomeEvents s.conversation ++
          [Event.append (Node.message type text none none)]) } := by
  simp [addMessage, removeWelcome_eq, truthy, Json.truthy, textContent, Json.toStr]

theorem addMessage_plain_eq (rt : Runtime) (type text : String) (s : VoiceAssistant) :
    endState (addMessage rt type (some (.str text)) (some .null) (some .null) s) =
      { s with
        conversation := s.conversation.erase Node.welcome ++ [Node.message type text none none],
        log := s.log ++ (welcomeEvents s.conversation ++
          [Event.append (Node.message type text none none)]) } := by
  rw [addMessage_plain]
  rfl

theorem showLoadingMessage_eq (now : Nat) (s : VoiceAssistant) :
    showLoadingMessage now s =
      ({ s with
          conversation := s.conversation.erase Node.welcome ++ [Node.loading (loadingIdAt now)],
          log := s.log ++ (welcomeEvents s.conversation ++
            [Event.append (Node.loading (loadingIdAt now))]) },
        loadingIdAt now) := by
  simp [showLoadingMessage, removeWelcome_eq, loadingIdAt]

theorem find_hasId (id : String) (l : List Node) :
    l.find? (Node.hasId id) = if Node.loading id ∈ l then some (Node.loading id) else none := by
  induction l with
  | nil => simp
  | cons n rest ih =>
    cases n with
    | welcome => simp [List.find?, Node.hasId, ih]
    | message t x i a => simp [List.find?, Node.hasId, ih]
    | loading j =>
      by_cases h : j = id
      · subst h; simp [List.find?, Node.hasId]
      · have h2 : ¬ id = j := fun e => h e.symm
        have hb : (j == id) = false := by simp [h]
        simp [List.find?, Node.hasId, hb, h2, ih]

theorem removeLoadingMessage_some_eq (id : String) (hid : id ≠ "") (s : VoiceAssistant) :
    removeLoadingMessage (some id) s =
      if Node.loading id ∈ s.conversation then
        { s with conversation := s.conversation.erase (Node.loading id),
                 log := s.log ++ [Event.remove (Node.loading id)] }
      else s := by
  simp only [removeLoadingMessage, getElementById, find_hasId, hid, ne_eq, not_false_eq_true,
    if_true]
  split_ifs <;> rfl

theorem removeLoadingMessage_of_mem (id : String) (hid : id ≠ "") (s : VoiceAssistant)
    (hm : Node.loading id ∈ s.conversation) :
    removeLoadingMessage (some id) s =
      { s with conversation := s.conversation.erase (Node.loading id),
               log := s.log ++ [Event.remove (Node.loading id)] } := by
  rw [removeLoadingMessage_some_eq id hid, if_pos hm]

@[simp] theorem loading_mem_erase_welcome (id : String) (l : List Node) :
    Node.loading id ∈ l.erase Node.welcome ↔ Node.loading id ∈ l :=
  List.mem_erase_of_ne (by simp)

/-! ## The connection health monitor -/

theorem updateConnectionStatus_eq (status : String) (s : VoiceAssistant) :
    updateConnectionStatus status s =
      if hasStatusElements s then
        { s with statusIndicator := s.statusIndicator.map (nextClasses status),
                 connectionText := some (nextText status) }
      else s := by
  unfold updateConnectionStatus hasStatusElements nextClasses nextText
  cases hi : s.statusIndicator <;> cases hc : s.connectionText <;> simp
  split_ifs <;> rfl

@[simp] theorem updateConnectionStatus_conversation (st : String) (s : VoiceAssistant) :
    (updateConnectionStatus st s).conversation = s.conversation := by
  rw [updateConnectionStatus_eq]; split_ifs <;> rfl

@[simp] theorem updateConnectionStatus_log (st : String) (s : VoiceAssistant) :
    (updateConnectionStatus st s).log = s.log := by
  rw [updateConnectionStatus_eq]; split_ifs <;> rfl

@[simp] theorem updateConnectionStatus_apiBaseUrl (st : String) (s : VoiceAssistant) :
    (updateConnectionStatus st s).apiBaseUrl = s.apiBaseUrl := by
  rw [updateConnectionStatus_eq]; split_ifs <;> rfl

@[simp] theorem updateConnectionStatus_lastUserMessage (st : String) (s : VoiceAssistant) :
    (updateConnectionStatus st s).lastUserMessage = s.lastUserMessage := by
  rw [updateConnectionStatus_eq]; split_ifs <;> rfl

theorem checkBackendConnection_of_fails (rt : Runtime) (probe : FetchResult)
    (s : VoiceAssistant) (h : probeFails rt probe = true) :
    checkBackendConnection rt probe s =
      (updateConnectionStatus "disconnected"
        { s with log := s.log ++ [Event.fetch "GET" (s.apiBaseUrl ++ "/health")] },
       .error ("Cannot reach backend at " ++ s.apiBaseUrl ++ ". Is the server running?")) := by
  unfold checkBackendConnection
  cases probe with
  | rejects m => rfl
  | responds status body =>
    simp only [probeFails, Bool.or_eq_true, Bool.not_eq_true'] at h
    by_cases hs : statusOk status = true
    · simp only [hs, Bool.not_true, Bool.false_eq_true, if_false]
      cases hp : rt.jsonParse body with
      | error m => rfl
      | ok j => simp [hs, hp] at h
    · simp [hs]

theorem checkBackendConnection_of_ok (rt : Runtime) (probe : FetchResult)
    (s : VoiceAssistant) (h : probeFails rt probe = false) :
    checkBackendConnection rt probe s =
      (updateConnectionStatus "connected"
        { s with log := s.log ++ [Event.fetch "GET" (s.apiBaseUrl ++ "/health")] },
       .ok true) := by
  unfold checkBackendConnection
  cases probe with
  | rejects m => simp [probeFails] at h
  | responds status body =>
    simp only [probeFails, Bool.or_eq_false_iff, Bool.not_eq_false'] at h
    obtain ⟨hs, hp⟩ := h
    simp only [hs, Bool.not_true, Bool.false_eq_true, if_false]
    cases hj : rt.jsonParse body with
    | error m => simp [hj] at hp
    | ok j => rfl

theorem connectionStatus_update (status : String) (s : VoiceAssistant)
    (h : hasStatusElements s = true) :
    hasStatusElements (updateConnectionStatus status s) = true ∧
    (status = "connected" →
      connectionStatus (updateConnectionStatus status s) = some .connected) ∧
    (status = "disconnected" →
      connectionStatus (updateConnectionStatus status s) = some .disconnected) := by
  rw [updateConnectionStatus_eq, if_pos h]
  unfold hasStatusElements at h
  cases hi : s.statusIndicator with
  | none => simp [hi] at h
  | some classes =>
    refine ⟨by simp [hasStatusElements, hi], ?_, ?_⟩
    · intro hs
      subst hs
      simp [connectionStatus, hi, nextClasses]
    · intro hs
      subst hs
      simp [connectionStatus, hi, nextClasses, List.mem_filter]

theorem connectionStatus_congr (s t : VoiceAssistant)
    (h : t.statusIndicator = s.statusIndicator) : connectionStatus t = connectionStatus s := by
  simp [connectionStatus, h]

/-! ## The orchestrator -/

theorem sendTextCatch_eq (rt : Runtime) (message : String) (s : VoiceAssistant) :
    sendTextCatch rt message s =
      endState (addMessage rt "assistant" (some (.str (textErrorText message s.apiBaseUrl)))
        (some .null) (some .null) s) := by
  unfold sendTextCatch textErrorText
  by_cases h : (includes (orElse message "Unknown error occurred") "Failed to fetch" ||
      includes (orElse message "Unknown error occurred") "NetworkError") = true
  · simp [h]
  · simp [h]

theorem processRecordingCatch_log (rt : Runtime) (message : String) (s : VoiceAssistant) :
    (processRecordingCatch rt message s).log =
      s.log ++ ((s.conversation.filter Node.isLoading).map Event.remove ++
        (welcomeEvents (s.conversation.filter fun n => !n.isLoading) ++
        [Event.append (Node.message "assistant" (recordingErrorText message) none none)])) := by
  simp [processRecordingCatch, removeLoadingMessage, addMessage_plain_eq, removeAllLoading,
    recordingErrorText]

theorem Step.refl (a : Bool) (s : VoiceAssistant) : Step a s s :=
  ⟨by simp [eventsSince], by simp [eventsSince], by simp [eventsSince], by simp [eventsSince],
    fun _ => by simp [eventsSince], fun _ => Iff.rfl, rfl, id, fun _ h => h⟩

theorem Step.trans {a : Bool} {s t u : VoiceAssistant} (h1 : Step a s t) (h2 : Step a t u) :
    Step a s u := by
  have hlog : u.log = s.log ++ (eventsSince s t ++ eventsSince t u) := by
    rw [h2.log_eq, h1.log_eq, List.append_assoc]
  have hev : eventsSince s u = eventsSince s t ++ eventsSince t u :=
    eventsSince_of_log _ _ _ hlog
  refine ⟨by rw [hev]; exact hlog, ?_, ?_, ?_, ?_, ?_, ?_, ?_, ?_⟩
  · rw [hev, List.filter_append, h1.no_fetch, h2.no_fetch]; rfl
  · rw [hev, List.filter_append, h1.no_append_loading, h2.no_append_loading]; rfl
  · rw [hev, List.filter_append, h1.no_remove_loading, h2.no_remove_loading]; rfl
  · intro ha
    rw [hev, List.filter_append, h1.no_user ha, h2.no_user ha]; rfl
  · intro id
    exact (h2.loading_mem id).trans (h1.loading_mem id)
  · exact h2.base_eq.trans h1.base_eq
  · exact fun he => h2.elements (h1.elements he)
  · exact fun he hc => h2.status (h1.elements he) (h1.status he hc)

theorem step_of_removal (a : Bool) (s : VoiceAssistant) :
    Step a s { s with conversation := s.conversation.erase Node.welcome,
                      log := s.log ++ welcomeEvents s.conversation } := by
  refine ⟨?_, ?_, ?_, ?_, ?_, ?_, rfl, ?_, ?_⟩
  · simp [eventsSince]
  · simp [eventsSince]
  · simp [eventsSince]
  · simp [eventsSince]
  · intro _
    simp [eventsSince]
  · intro id
    simp
  · intro he
    simpa [hasStatusElements] using he
  · intro _ hc
    simpa [connectionStatus] using hc

theorem step_of_message (a : Bool) (s : VoiceAssistant) (type shown : String)
    (badge : Option String) (action : Option (Option String))
    (ha : a = false → type ≠ "user") :
    Step a s { s with
      conversation := s.conversation.erase Node.welcome ++
        [Node.message type shown badge action],
      log := s.log ++ (welcomeEvents s.conversation ++
        [Event.append (Node.message type shown badge action)]) } := by
  refine ⟨?_, ?_, ?_, ?_, ?_, ?_, rfl, ?_, ?_⟩
  · simp [eventsSince]
  · simp [eventsSince, List.filter_append, Event.isFetch]
  · simp [eventsSince, List.filter_append, Event.isAppendLoading, Node.isLoading]
  · simp [eventsSince, List.filter_append, Event.isRemoveLoading]
  · intro h
    simp [eventsSince, List.filter_append, Event.isAppendUser, Node.isUser, ha h]
  · intro id
    simp
  · intro he
    simpa [hasStatusElements] using he
  · intro _ hc
    simpa [connectionStatus] using hc

theorem step_of_addMessage (rt : Runtime) (a : Bool) (type : String)
    (text intent audioUrl : JsValue) (s : VoiceAssistant) (ha : a = false → type ≠ "user") :
    Step a s (endState (addMessage rt type text intent audioUrl s)) := by
  cases h : addMessage rt type text intent audioUrl s with
  | ok t =>
    obtain ⟨shown, badge, action, ht⟩ := addMessage_ok_spec rt type text intent audioUrl s t h
    simp only [endState]
    rw [ht]
    exact step_of_message a s type shown badge action ha
  | error e =>
    obtain ⟨m, t⟩ := e
    simp only [endState]
    rw [addMessage_error_spec rt type text intent audioUrl s t m h]
    exact step_of_removal a s

theorem step_of_connected (a : Bool) (s : VoiceAssistant) :
    Step a s { updateConnectionStatus "connected" s with lastUserMessage := none } ∧
    (hasStatusElements s = true →
      connectionStatus { updateConnectionStatus "connected" s with lastUserMessage := none } =
        some .connected) := by
  have hc : hasStatusElements s = true →
      connectionStatus { updateConnectionStatus "connected" s with lastUserMessage := none } =
        some .connected := fun he =>
    (connectionStatus_congr (updateConnectionStatus "connected" s) _ rfl).trans
      ((connectionStatus_update "connected" s he).2.1 rfl)
  refine ⟨⟨?_, ?_, ?_, ?_, ?_, ?_, ?_, ?_, ?_⟩, hc⟩
  · simp [eventsSince]
  · simp [eventsSince]
  · simp [eventsSince]
  · simp [eventsSince]
  · intro _
    simp [eventsSince]
  · intro id
    simp
  · simp
  · intro he
    exact (connectionStatus_update "connected" s he).1
  · intro he _
    exact hc he

theorem handleResponse_spec (rt : Runtime) (data : Json) (s : VoiceAssistant) :
    Step (!pendingEcho s) s (endState (handleResponse rt data s)) ∧
    (∀ t, handleResponse rt data s = .ok t → hasStatusElements s = true →
      connectionStatus t = some .connected) := by
  unfold handleResponse
  split
  · rename_i text response intent audioUrl _ _ _ _
    have hecho : Step (!pendingEcho s) s (endState
        (if (truthy text && !pendingEcho s) = true then
          addMessage rt "user" text (some .null) (some .null) s else .ok s)) := by
      by_cases hc : (truthy text && !pendingEcho s) = true
      · rw [if_pos hc]
        refine step_of_addMessage rt _ "user" text _ _ s ?_
        intro hp
        simp [hp] at hc
      · rw [if_neg hc]
        exact Step.refl _ s
    cases he : (if (truthy text && !pendingEcho s) = true then
        addMessage rt "user" text (some .null) (some .null) s else Except.ok s) with
    | error e =>
      rw [he] at hecho
      simp only []
      exact ⟨hecho, fun t h => by simp at h⟩
    | ok s1 =>
      rw [he] at hecho
      have h1 : Step (!pendingEcho s) s s1 := hecho
      have hadd := step_of_addMessage rt (!pendingEcho s) "assistant" response intent audioUrl
        s1 (fun _ => by decide)
      simp only []
      cases ha : addMessage rt "assistant" response intent audioUrl s1 with
      | error e =>
        rw [ha] at hadd
        simp only []
        exact ⟨h1.trans hadd, fun t h => by simp at h⟩
      | ok s2 =>
        rw [ha] at hadd
        have h2 : Step (!pendingEcho s) s s2 := h1.trans hadd
        have h3 := step_of_connected (!pendingEcho s) s2
        simp only []
        refine ⟨h2.trans h3.1, fun t h hs => ?_⟩
        simp only [Except.ok.injEq] at h
        rw [← h]
        exact h3.2 (h2.elements hs)
  · exact ⟨Step.refl _ s, fun t h => by simp at h⟩

theorem settle_spec (rt : Runtime) (reply : FetchResult) (s : VoiceAssistant) :
    Step (!pendingEcho s) s (endState (settle rt reply s)) ∧
    (∀ t, settle rt reply s = .ok t → hasStatusElements s = true →
      connectionStatus t = some .connected) := by
  unfold settle
  cases reply with
  | rejects m => exact ⟨Step.refl _ s, fun t h => by simp at h⟩
  | responds status body =>
    simp only
    split
    · exact ⟨Step.refl _ s, fun t h => by simp at h⟩
    · split
      · exact ⟨Step.refl _ s, fun t h => by simp at h⟩
      · exact handleResponse_spec rt _ s

theorem textErrorText_contains_base (base : String) :
    Contains (textErrorText ("Cannot reach backend at " ++ base ++ ". Is the server running?")
      base) base := by
  have hne : "Cannot reach backend at " ++ base ++ ". Is the server running?" ≠ "" := by
    intro h
    have := congrArg String.length h
    simp only [String.length_append] at this
    have h1 : "Cannot reach backend at ".length = 24 := by decide
    have h0 : "".length = 0 := by decide
    omega
  unfold textErrorText
  rw [orElse_of_ne _ _ hne]
  split_ifs
  · exact contains_mid _ _ _
  · have : "Sorry, I encountered an error: " ++
        ("Cannot reach backend at " ++ base ++ ". Is the server running?") ++
        ". Please check the console for details." =
        ("Sorry, I encountered an error: " ++ "Cannot reach backend at ") ++ base ++
        (". Is the server running?" ++ ". Please check the console for details.") := by
      simp only [String.append_assoc]
    rw [this]
    exact contains_mid _ _ _

theorem sendTextMessage_probe_fails_log (rt : Runtime) (now : Nat) (probe reply : FetchResult)
    (s : VoiceAssistant) (ht : jsTrim s.textInput ≠ "") (hf : probeFails rt probe = true) :
    (sendTextMessage rt now probe reply s).log = s.log ++
      (welcomeEvents s.conversation ++
        [Event.append (Node.message "user" (jsTrim s.textInput) none none)] ++
        welcomeEvents (s.conversation.erase Node.welcome ++
          [Node.message "user" (jsTrim s.textInput) none none]) ++
        [Event.append (Node.loading (loadingIdAt now)),
          Event.fetch "GET" (s.apiBaseUrl ++ "/health")] ++
        welcomeEvents ((s.conversation.erase Node.welcome ++
          [Node.message "user" (jsTrim s.textInput) none none]).erase Node.welcome ++
          [Node.loading (loadingIdAt now)]) ++
        [Event.append (Node.message "assistant"
          (textErrorText ("Cannot reach backend at " ++ s.apiBaseUrl ++
            ". Is the server running?") s.apiBaseUrl) none none),
          Event.remove (Node.loading (loadingIdAt now))]) := by
  simp only [sendTextMessage, ht, if_false, showLoadingMessage_eq,
    checkBackendConnection_of_fails _ _ _ hf, sendTextCatch_eq, addMessage_plain_eq]
  rw [removeLoadingMessage_of_mem _ (loadingIdAt_ne_empty now)]
  · simp
  · simp

theorem textSubmitted_log (rt : Runtime) (now : Nat) (s : VoiceAssistant) :
    (textSubmitted rt now s).log = s.log ++ textSubmittedEvents now s := by
  simp [textSubmitted, textSubmittedEvents, addMessage_plain_eq, showLoadingMessage_eq]

theorem textSubmitted_mem (rt : Runtime) (now : Nat) (s : VoiceAssistant) :
    Node.loading (loadingIdAt now) ∈ (textSubmitted rt now s).conversation := by
  simp [textSubmitted, addMessage_plain_eq, showLoadingMessage_eq]

theorem textSubmitted_base (rt : Runtime) (now : Nat) (s : VoiceAssistant) :
    (textSubmitted rt now s).apiBaseUrl = s.apiBaseUrl := by
  simp [textSubmitted, addMessage_plain_eq, showLoadingMessage_eq]

theorem textSubmitted_pending (rt : Runtime) (now : Nat) (s : VoiceAssistant)
    (ht : jsTrim s.textInput ≠ "") :
    pendingEcho (textSubmitted rt now s) = true := by
  simp [textSubmitted, addMessage_plain_eq, showLoadingMessage_eq, pendingEcho, ht]

theorem textSubmitted_status (rt : Runtime) (now : Nat) (s : VoiceAssistant)
    (he : hasStatusElements s = true) :
    hasStatusElements (textSubmitted rt now s) = true ∧
      connectionStatus (textSubmitted rt now s) = some .connected := by
  have h := connectionStatus_update "connected"
    { (showLoadingMessage now
        { endState (addMessage rt "user" (some (.str (jsTrim s.textInput))) (some .null)
            (some .null) s) with
          lastUserMessage := some (jsTrim s.textInput), textInput := "" }).1 with
      log := (showLoadingMessage now
        { endState (addMessage rt "user" (some (.str (jsTrim s.textInput))) (some .null)
            (some .null) s) with
          lastUserMessage := some (jsTrim s.textInput), textInput := "" }).1.log ++
        [Event.fetch "GET" ((showLoadingMessage now
        { endState (addMessage rt "user" (some (.str (jsTrim s.textInput))) (some .null)
            (some .null) s) with
          lastUserMessage := some (jsTrim s.textInput), textInput := "" }).1.apiBaseUrl ++
          "/health")] }
    (by simpa [hasStatusElements, addMessage_plain_eq, showLoadingMessage_eq] using he)
  exact ⟨h.1, h.2.1 rfl⟩

theorem voiceSubmitted_log (now : Nat) (s : VoiceAssistant) :
    (voiceSubmitted now s).log = s.log ++ voiceSubmittedEvents now s := by
  simp [voiceSubmitted, voiceSubmittedEvents, showLoadingMessage_eq]

theorem voiceSubmitted_mem (now : Nat) (s : VoiceAssistant) :
    Node.loading (loadingIdAt now) ∈ (voiceSubmitted now s).conversation := by
  simp [voiceSubmitted, showLoadingMessage_eq]

theorem voiceSubmitted_status (now : Nat) (s : VoiceAssistant)
    (he : hasStatusElements s = true) :
    hasStatusElements (voiceSubmitted now s) = true ∧
      connectionStatus (voiceSubmitted now s) = some .connected := by
  have h := connectionStatus_update "connected"
    { s with log := s.log ++ [Event.fetch "GET" (s.apiBaseUrl ++ "/health")] }
    (by simpa [hasStatusElements] using he)
  constructor
  · simpa [voiceSubmitted, showLoadingMessage_eq, hasStatusElements] using h.1
  · simpa [voiceSubmitted, showLoadingMessage_eq, connectionStatus] using h.2.1 rfl

theorem sendTextMessage_of_ok (rt : Runtime) (now : Nat) (probe reply : FetchResult)
    (s : VoiceAssistant) (ht : jsTrim s.textInput ≠ "") (hok : probeFails rt probe = false) :
    sendTextMessage rt now probe reply s =
      finish rt now reply (sendTextCatch rt) (textSubmitted rt now s) := by
  simp only [sendTextMessage, ht, if_false, checkBackendConnection_of_ok _ _ _ hok, finish,
    answered,
    textSubmitted, showLoadingMessage_eq, updateConnectionStatus_log,
    updateConnectionStatus_apiBaseUrl]

theorem processRecording_of_ok (rt : Runtime) (now : Nat) (probe reply : FetchResult)
    (s : VoiceAssistant) (hc : s.audioChunks.flatten ≠ [])
    (hok : probeFails rt probe = false) :
    processRecording rt now probe reply s =
      finish rt now reply
        (fun message t => endState (addMessage rt "assistant"
          (some (.str (voiceErrorText message))) (some .null) (some .null) t))
        (voiceSubmitted now s) := by
  simp only [processRecording, List.length_eq_zero, hc, if_false,
    checkBackendConnection_of_ok _ _ _ hok, finish, answered, voiceSubmitted,
    showLoadingMessage_eq,
    sendVoiceMessage, voiceErrorText]

theorem answered_spec (rt : Runtime) (reply : FetchResult)
    (onError : String → VoiceAssistant → VoiceAssistant) (s : VoiceAssistant)
    (herr : ∀ m t, ∃ text, onError m t =
      endState (addMessage rt "assistant" (some (.str text)) (some .null) (some .null) t)) :
    Step (!pendingEcho s) s (answered rt reply onError s) := by
  have h := (settle_spec rt reply s).1
  unfold answered
  cases hs : settle rt reply s with
  | ok t =>
    rw [hs] at h
    exact h
  | error e =>
    obtain ⟨m, t⟩ := e
    rw [hs] at h
    obtain ⟨text, ht⟩ := herr m t
    simp only [ht]
    exact Step.trans h (step_of_addMessage rt _ "assistant" _ _ _ t (fun _ => by decide))

theorem finish_log (rt : Runtime) (now : Nat) (reply : FetchResult)
    (onError : String → VoiceAssistant → VoiceAssistant) (s : VoiceAssistant)
    (herr : ∀ m t, ∃ text, onError m t =
      endState (addMessage rt "assistant" (some (.str text)) (some .null) (some .null) t))
    (hm : Node.loading (loadingIdAt now) ∈ s.conversation) :
    (finish rt now reply onError s).log =
      s.log ++ (eventsSince s (answered rt reply onError s) ++
        [Event.remove (Node.loading (loadingIdAt now))]) := by
  have h := answered_spec rt reply onError s herr
  unfold finish
  rw [removeLoadingMessage_of_mem _ (loadingIdAt_ne_empty now) _
    ((h.loading_mem _).2 hm)]
  simp only [← List.append_assoc, ← h.log_eq]

theorem finish_status (rt : Runtime) (now : Nat) (reply : FetchResult)
    (onError : String → VoiceAssistant → VoiceAssistant) (s : VoiceAssistant) :
    connectionStatus (finish rt now reply onError s) =
      connectionStatus (answered rt reply onError s) := by
  unfold finish
  rw [removeLoadingMessage_some_eq _ (loadingIdAt_ne_empty now)]
  split_ifs <;> rfl

theorem unreachableMessage_ne_empty (base : String) : unreachableMessage base ≠ "" := by
  intro h
  have := congrArg String.length h
  simp only [unreachableMessage, String.length_append] at this
  have h1 : "Cannot reach backend at ".length = 24 := by decide
  have h0 : "".length = 0 := by decide
  omega

theorem recordingErrorText_contains_base (base : String) :
    Contains (recordingErrorText (unreachableMessage base)) base := by
  unfold recordingErrorText
  rw [orElse_of_ne _ _ (unreachableMessage_ne_empty base)]
  have : "Sorry, I encountered an error processing your voice: " ++ unreachableMessage base ++
      ". Please try again." =
      ("Sorry, I encountered an error processing your voice: " ++ "Cannot reach backend at ") ++
        base ++ (". Is the server running?" ++ ". Please try again.") := by
    simp only [unreachableMessage, String.append_assoc]
  rw [this]
  exact contains_mid _ _ _

theorem processRecording_probe_fails_log (rt : Runtime) (now : Nat)
    (probe reply : FetchResult) (s : VoiceAssistant) (hc : s.audioChunks.flatten ≠ [])
    (hf : probeFails rt probe = true) :
    (processRecording rt now probe reply s).log = s.log ++
      ([Event.fetch "GET" (s.apiBaseUrl ++ "/health")] ++
        (s.conversation.filter Node.isLoading).map Event.remove ++
        welcomeEvents (s.conversation.filter fun n => !n.isLoading) ++
        [Event.append (Node.message "assistant"
          (recordingErrorText (unreachableMessage s.apiBaseUrl)) none none)]) := by
  simp only [processRecording, List.length_eq_zero, hc, if_false,
    checkBackendConnection_of_fails _ _ _ hf, processRecordingCatch_log,
    updateConnectionStatus_log, updateConnectionStatus_conversation, unreachableMessage,
    List.append_assoc]

theorem processRecording_empty_log (rt : Runtime) (now : Nat)
    (probe reply : FetchResult) (s : VoiceAssistant) (hc : s.audioChunks.flatten = []) :
    (processRecording rt now probe reply s).log = s.log ++
      ((s.conversation.filter Node.isLoading).map Event.remove ++
        (welcomeEvents (s.conversation.filter fun n => !n.isLoading) ++
        [Event.append (Node.message "assistant"
          (recordingErrorText "No audio data recorded") none none)])) := by
  simp only [processRecording, List.length_eq_zero, hc, if_true, processRecordingCatch_log]

theorem sendTextCatch_herr (rt : Runtime) :
    ∀ m t, ∃ text, sendTextCatch rt m t =
      endState (addMessage rt "assistant" (some (.str text)) (some .null) (some .null) t) :=
  fun m t => ⟨_, sendTextCatch_eq rt m t⟩

theorem voiceCatch_herr (rt : Runtime) :
    ∀ m t, ∃ text, (fun message t => endState (addMessage rt "assistant"
        (some (.str (voiceErrorText message))) (some .null) (some .null) t)) m t =
      endState (addMessage rt "assistant" (some (.str text)) (some .null) (some .null) t) :=
  fun _ _ => ⟨_, rfl⟩

theorem sendTextMessage_ok_log (rt : Runtime) (now : Nat) (probe reply : FetchResult)
    (s : VoiceAssistant) (ht : jsTrim s.textInput ≠ "") (hok : probeFails rt probe = false) :
    (sendTextMessage rt now probe reply s).log = s.log ++
      (textSubmittedEvents now s ++
        (eventsSince (textSubmitted rt now s)
          (answered rt reply (sendTextCatch rt) (textSubmitted rt now s)) ++
        [Event.remove (Node.loading (loadingIdAt now))])) := by
  rw [sendTextMessage_of_ok rt now probe reply s ht hok,
    finish_log rt now reply (sendTextCatch rt) _ (sendTextCatch_herr rt) (textSubmitted_mem rt now s),
    textSubmitted_log, List.append_assoc]

theorem processRecording_ok_log (rt : Runtime) (now : Nat) (probe reply : FetchResult)
    (s : VoiceAssistant) (hc : s.audioChunks.flatten ≠ [])
    (hok : probeFails rt probe = false) :
    (processRecording rt now probe reply s).log = s.log ++
      (voiceSubmittedEvents now s ++
        (eventsSince (voiceSubmitted now s)
          (answered rt reply
            (fun message t => endState (addMessage rt "assistant"
              (some (.str (voiceErrorText message))) (some .null) (some .null) t))
            (voiceSubmitted now s)) ++
        [Event.remove (Node.loading (loadingIdAt now))])) := by
  rw [processRecording_of_ok rt now probe reply s hc hok,
    finish_log rt now reply _ _ (voiceCatch_herr rt) (voiceSubmitted_mem now s),
    voiceSubmitted_log, List.append_assoc]

theorem filter_map_remove_loading (l : List Node) :
    ((l.filter Node.isLoading).map Event.remove).filter Event.isRemoveLoading =
      (l.filter Node.isLoading).map Event.remove := by
  rw [List.filter_eq_self]
  intro e he
  obtain ⟨n, hn, rfl⟩ := List.mem_map.1 he
  exact (List.mem_filter.1 hn).2

theorem removeLoadingMessage_statusIndicator (id : String) (hid : id ≠ "")
    (s : VoiceAssistant) :
    (removeLoadingMessage (some id) s).statusIndicator = s.statusIndicator := by
  rw [removeLoadingMessage_some_eq id hid]
  split_ifs <;> rfl

theorem sendTextMessage_probe_fails_status (rt : Runtime) (now : Nat)
    (probe reply : FetchResult) (s : VoiceAssistant) (ht : jsTrim s.textInput ≠ "")
    (hf : probeFails rt probe = true) (he : hasStatusElements s = true) :
    connectionStatus (sendTextMessage rt now probe reply s) = some .disconnected := by
  have hu := (connectionStatus_update "disconnected"
    { (showLoadingMessage now
        { endState (addMessage rt "user" (some (.str (jsTrim s.textInput))) (some .null)
            (some .null) s) with
          lastUserMessage := some (jsTrim s.textInput), textInput := "" }).1 with
      log := (showLoadingMessage now
        { endState (addMessage rt "user" (some (.str (jsTrim s.textInput))) (some .null)
            (some .null) s) with
          lastUserMessage := some (jsTrim s.textInput), textInput := "" }).1.log ++
        [Event.fetch "GET" ((showLoadingMessage now
        { endState (addMessage rt "user" (some (.str (jsTrim s.textInput))) (some .null)
            (some .null) s) with
          lastUserMessage := some (jsTrim s.textInput), textInput := "" }).1.apiBaseUrl ++
          "/health")] }
    (by simpa [hasStatusElements, addMessage_plain_eq, showLoadingMessage_eq] using he)).2.2 rfl
  rw [← hu]
  apply connectionStatus_congr
  simp only [sendTextMessage, ht, if_false, checkBackendConnection_of_fails _ _ _ hf,
    removeLoadingMessage_statusIndicator _ (loadingIdAt_ne_empty now), sendTextCatch_eq,
    addMessage_plain_eq, showLoadingMessage_eq]

theorem processRecording_probe_fails_status (rt : Runtime) (now : Nat)
    (probe reply : FetchResult) (s : VoiceAssistant) (hc : s.audioChunks.flatten ≠ [])
    (hf : probeFails rt probe = true) (he : hasStatusElements s = true) :
    connectionStatus (processRecording rt now probe reply s) = some .disconnected := by
  have hu := (connectionStatus_update "disconnected"
    { s with log := s.log ++ [Event.fetch "GET" (s.apiBaseUrl ++ "/health")] }
    (by simpa [hasStatusElements] using he)).2.2 rfl
  rw [← hu]
  apply connectionStatus_congr
  simp only [processRecording, List.length_eq_zero, hc, if_false,
    checkBackendConnection_of_fails _ _ _ hf, processRecordingCatch, removeLoadingMessage,
    removeAllLoading, addMessage_plain_eq]

/-! ## Loading ids -/

theorem digitChar_decode (d : Nat) (h : d < 10) : (Nat.digitChar d).toNat - 48 = d := by
  interval_cases d <;> rfl

theorem decodeDigits_snoc (front : List Char) (c : Char) :
    decodeDigits (front ++ [c]) = decodeDigits front * 10 + (c.toNat - 48) := by
  simp [decodeDigits, List.foldl_append]

theorem toDigitsCore_decode (fuel : Nat) :
    ∀ n ds, n < fuel →
      ∃ front, Nat.toDigitsCore 10 fuel n ds = front ++ ds ∧ decodeDigits front = n := by
  induction fuel with
  | zero => intro n ds h; omega
  | succ fuel ih =>
    intro n ds h
    unfold Nat.toDigitsCore
    by_cases hz : n / 10 = 0
    · refine ⟨[Nat.digitChar (n % 10)], by simp [hz], ?_⟩
      have hlt : n % 10 < 10 := Nat.mod_lt _ (by decide)
      have := decodeDigits_snoc [] (Nat.digitChar (n % 10))
      simp only [List.nil_append] at this
      rw [this, digitChar_decode _ hlt]
      simp only [decodeDigits, List.foldl_nil]
      omega
    · have hlt : n / 10 < fuel := by omega
      obtain ⟨front, hf, hd⟩ := ih (n / 10) (Nat.digitChar (n % 10) :: ds) hlt
      refine ⟨front ++ [Nat.digitChar (n % 10)], by simp [hz, hf], ?_⟩
      rw [decodeDigits_snoc, hd, digitChar_decode _ (Nat.mod_lt _ (by decide))]
      omega

theorem numberToString_decode (n : Nat) : decodeDigits (numberToString n).data = n := by
  obtain ⟨front, hf, hd⟩ := toDigitsCore_decode (n + 1) n [] (Nat.lt_succ_self n)
  simp only [numberToString, Nat.repr, Nat.toDigits, hf, List.append_nil, List.asString]
  exact hd

theorem numberToString_injective (m n : Nat) (h : numberToString m = numberToString n) :
    m = n := by
  rw [← numberToString_decode m, ← numberToString_decode n, h]

theorem loadingIdAt_inj (m n : Nat) : loadingIdAt m = loadingIdAt n ↔ m = n := by
  constructor
  · intro h
    apply numberToString_injective
    have hd := congrArg String.data h
    simp only [loadingIdAt, String.data_append] at hd
    exact String.ext (List.append_cancel_left hd)
  · intro h
    rw [h]

theorem count_erase_loading (id other : String) (h : other ≠ id) (l : List Node) :
    (l.erase (Node.loading id)).count (Node.loading other) = l.count (Node.loading other) := by
  rw [List.count_erase_of_ne]
  intro he
  exact h (Node.loading.inj he)

/-! ## Replies that are not ok -/

theorem settle_not_ok (rt : Runtime) (status : Nat) (body : String) (s : VoiceAssistant)
    (hs : statusOk status = false) :
    settle rt (.responds status body) s = .error (httpErrorMessage rt status body, s) := by
  simp [settle, hs]

theorem answered_of_error (rt : Runtime) (reply : FetchResult)
    (onError : String → VoiceAssistant → VoiceAssistant) (s : VoiceAssistant) (m : String)
    (h : settle rt reply s = .error (m, s)) : answered rt reply onError s = onError m s := by
  simp [answered, h]

theorem eventsSince_addMessage_plain (rt : Runtime) (type text : String)
    (s : VoiceAssistant) :
    eventsSince s
        (endState (addMessage rt type (some (.str text)) (some .null) (some .null) s)) =
      welcomeEvents s.conversation ++ [Event.append (Node.message type text none none)] := by
  simp [eventsSince, addMessage_plain_eq]

theorem processRecording_not_ok_messages (rt : Runtime) (now : Nat) (probe : FetchResult)
    (status : Nat) (body : String) (s : VoiceAssistant) (hc : s.audioChunks.flatten ≠ [])
    (hok : probeFails rt probe = false) (hs : statusOk status = false) :
    (eventsSince s (processRecording rt now probe (.responds status body) s)).filter
        Event.isAppendMessage =
      [Event.append (Node.message "assistant"
        (voiceErrorText (httpErrorMessage rt status body)) none none)] := by
  rw [eventsSince_of_log _ _ _ (processRecording_ok_log rt now probe _ s hc hok),
    answered_of_error _ _ _ _ _ (settle_not_ok rt status body _ hs),
    eventsSince_addMessage_plain]
  simp [List.filter_append, Event.isAppendMessage, voiceSubmittedEvents]

theorem sendTextMessage_not_ok_messages (rt : Runtime) (now : Nat) (probe : FetchResult)
    (status : Nat) (body : String) (s : VoiceAssistant) (ht : jsTrim s.textInput ≠ "")
    (hok : probeFails rt probe = false) (hs : statusOk status = false) :
    (eventsSince s (sendTextMessage rt now probe (.responds status body) s)).filter
        Event.isAppendMessage =
      [Event.append (Node.message "user" (jsTrim s.textInput) none none),
        Event.append (Node.message "assistant"
          (textErrorText (httpErrorMessage rt status body) s.apiBaseUrl) none none)] := by
  rw [eventsSince_of_log _ _ _ (sendTextMessage_ok_log rt now probe _ s ht hok),
    answered_of_error _ _ _ _ _ (settle_not_ok rt status body _ hs), sendTextCatch_eq,
    eventsSince_addMessage_plain, textSubmitted_base]
  simp [List.filter_append, Event.isAppendMessage, textSubmittedEvents]

theorem httpErrorMessage_of_detail (rt : Runtime) (status : Nat) (body d : String)
    (props : List (String × Json)) (hp : rt.jsonParse body = .ok (.obj props))
    (hd : lookupProp "detail" props = some (.str d)) (hne : d ≠ "") :
    httpErrorMessage rt status body = d := by
  simp [httpErrorMessage, hp, Json.getProp, hd, Json.truthy, hne, Json.toStr]

set_option maxRecDepth 8000 in
theorem wrapped_detail_not_generic :
    ¬ Contains
      "Sorry, I encountered an error: model unavailable. Please check the console for details."
      "HTTP error! status:" := by
  unfold Contains
  decide

theorem httpErrorMessage_of_raw (rt : Runtime) (status : Nat) (body : String)
    (hp : rt.jsonParse body = .ok .null ∨ ∃ m, rt.jsonParse body = .error m) :
    httpErrorMessage rt status body = orElse body (genericMessage status) := by
  rcases hp with hp | ⟨m, hp⟩ <;> simp [httpErrorMessage, hp, Json.getProp, genericMessage]

theorem httpErrorMessage_of_falsy (rt : Runtime) (status : Nat) (body : String) (j : Json)
    (v : JsValue) (hp : rt.jsonParse body = .ok j) (hd : j.getProp "detail" = some v)
    (hv : truthy v = false) :
    httpErrorMessage rt status body = genericMessage status := by
  cases v with
  | none => simp [httpErrorMessage, hp, hd, genericMessage]
  | some d =>
    have : d.truthy = false := by simpa [truthy] using hv
    simp [httpErrorMessage, hp, hd, genericMessage, this]

theorem httpErrorMessage_of_truthy (rt : Runtime) (status : Nat) (body : String) (j d : Json)
    (hp : rt.jsonParse body = .ok j) (hd : j.getProp "detail" = some (some d))
    (ht : d.truthy = true) :
    httpErrorMessage rt status body = (d.toStr).getD rt.convertMessage := by
  simp only [httpErrorMessage, hp, hd, ht, if_true]
  cases d.toStr <;> rfl

theorem httpErrorMessage_cases (rt : Runtime) (body : String) :
    (∃ j d, rt.jsonParse body = .ok j ∧ j.getProp "detail" = some (some d) ∧
      d.truthy = true) ∨
    (rt.jsonParse body = .ok .null ∨ ∃ m, rt.jsonParse body = .error m) ∨
    (∃ j v, rt.jsonParse body = .ok j ∧ j.getProp "detail" = some v ∧ truthy v = false) := by
  cases hp : rt.jsonParse body with
  | error m => exact Or.inr (Or.inl (Or.inr ⟨m, rfl⟩))
  | ok j =>
    cases hd : j.getProp "detail" with
    | none =>
      cases j <;> simp [Json.getProp] at hd
      exact Or.inr (Or.inl (Or.inl rfl))
    | some v =>
      cases v with
      | none => exact Or.inr (Or.inr ⟨j, none, rfl, hd, rfl⟩)
      | some d =>
        cases ht : d.truthy with
        | true => exact Or.inl ⟨j, d, rfl, hd, ht⟩
        | false => exact Or.inr (Or.inr ⟨j, some d, rfl, hd, by simpa [truthy] using ht⟩)

theorem errorText_of_empty (base : String) :
    voiceErrorText "" =
      "Sorry, I encountered an error: Unknown error occurred. Please check the console for details." ∧
    textErrorText "" base = voiceErrorText "" := by
  constructor
  · rfl
  · unfold textErrorText
    rw [if_neg (by decide)]
    rfl

theorem voiceErrorText_of_ne (d : String) (h : d ≠ "") :
    voiceErrorText d =
      "Sorry, I encountered an error: " ++ d ++ ". Please check the console for details." := by
  simp [voiceErrorText, orElse_of_ne _ _ h]

theorem textErrorText_of_plain (d base : String) (h1 : includes d "Failed to fetch" = false)
    (h2 : includes d "NetworkError" = false) (h : d ≠ "") :
    textErrorText d base = voiceErrorText d := by
  simp [textErrorText, voiceErrorText, orElse_of_ne _ _ h, h1, h2]

/-! # The claims -/

/-! ## C1: Placeholder balance -/

/-- C1 fails as stated: while a text submission waits for its probe, its placeholder being
in the conversation, a recording that holds no data ends; that voice submission inserts no
placeholder and removes one. No placeholder is left then, so that the removal by id which
ends the text submission finds nothing to remove. -/
theorem placeholder_balance_fails :
    textInFlight.conversation =
      [Node.message "user" "hi" none none, Node.loading "loading-1"] ∧
    appendedLoading textInFlight
      (processRecording sampleRuntime 2 healthy healthy textInFlight) = 0 ∧
    removedLoading textInFlight
      (processRecording sampleRuntime 2 healthy healthy textInFlight) = 1 ∧
    (processRecording sampleRuntime 2 healthy healthy textInFlight).conversation.filter
      Node.isLoading = [] ∧
    removeLoadingMessage (some "loading-1")
        (processRecording sampleRuntime 2 healthy healthy textInFlight) =
      processRecording sampleRuntime 2 healthy healthy textInFlight := by
  decide

/-- C1, as the code has it. A submission is taken as one run of its method, from its first
step to its last with no step of another submission in between; the state it starts from may
hold the placeholders of submissions that are suspended. For such a run: a text submission
with non-blank input, from any state and for every outcome of the probe and of the request,
inserts one loading placeholder and removes one. So does a voice submission with a non-empty
recording whose probe succeeds, for every outcome of the request. A voice submission that is
given up before its placeholder is shown (empty recording, or failed probe) inserts none and
removes every loading placeholder that the conversation holds. -/
theorem placeholder_balance (rt : Runtime) (now : Nat) (probe reply : FetchResult)
    (s : VoiceAssistant) :
    (jsTrim s.textInput ≠ "" →
      appendedLoading s (sendTextMessage rt now probe reply s) = 1 ∧
      removedLoading s (sendTextMessage rt now probe reply s) = 1) ∧
    (s.audioChunks.flatten ≠ [] → probeFails rt probe = false →
      appendedLoading s (processRecording rt now probe reply s) = 1 ∧
      removedLoading s (processRecording rt now probe reply s) = 1) ∧
    (s.audioChunks.flatten = [] ∨ probeFails rt probe = true →
      appendedLoading s (processRecording rt now probe reply s) = 0 ∧
      removedLoading s (processRecording rt now probe reply s) =
        (s.conversation.filter Node.isLoading).length) := by
  unfold appendedLoading removedLoading
  refine ⟨?_, ?_, ?_⟩
  · intro ht
    cases hp : probeFails rt probe with
    | true =>
      rw [eventsSince_of_log _ _ _ (sendTextMessage_probe_fails_log rt now probe reply s ht hp)]
      simp [List.filter_append, Event.isAppendLoading, Event.isRemoveLoading, Node.isLoading]
    | false =>
      rw [eventsSince_of_log _ _ _ (sendTextMessage_ok_log rt now probe reply s ht hp)]
      have h := answered_spec rt reply (sendTextCatch rt) (textSubmitted rt now s)
        (sendTextCatch_herr rt)
      simp [List.filter_append, Event.isAppendLoading, Event.isRemoveLoading, Node.isLoading,
        textSubmittedEvents, h.no_append_loading, h.no_remove_loading]
  · intro hc hp
    rw [eventsSince_of_log _ _ _ (processRecording_ok_log rt now probe reply s hc hp)]
    have h := answered_spec rt reply _ (voiceSubmitted now s) (voiceCatch_herr rt)
    simp [List.filter_append, Event.isAppendLoading, Event.isRemoveLoading, Node.isLoading,
      voiceSubmittedEvents, h.no_append_loading, h.no_remove_loading]
  · intro h
    by_cases hc : s.audioChunks.flatten = []
    · rw [eventsSince_of_log _ _ _ (processRecording_empty_log rt now probe reply s hc)]
      simp [List.filter_append, Event.isAppendLoading, Event.isRemoveLoading, Node.isLoading,
        map_remove_filter Event.isAppendLoading (fun _ => rfl), filter_map_remove_loading]
    · have hp : probeFails rt probe = true := h.resolve_left hc
      rw [eventsSince_of_log _ _ _ (processRecording_probe_fails_log rt now probe reply s hc hp)]
      simp [List.filter_append, Event.isAppendLoading, Event.isRemoveLoading, Node.isLoading,
        map_remove_filter Event.isAppendLoading (fun _ => rfl), filter_map_remove_loading]

/-- C1 at concrete inputs: a text turn whose request is rejected, a voice turn answered with
status 500, and an empty recording on the fresh page. -/
theorem placeholder_balance_witness :
    (appendedLoading (typed "hi")
        (sendTextMessage sampleRuntime 5 healthy (.rejects "Failed to fetch") (typed "hi")) = 1 ∧
      removedLoading (typed "hi")
        (sendTextMessage sampleRuntime 5 healthy (.rejects "Failed to fetch") (typed "hi")) = 1) ∧
    (appendedLoading recorded
        (processRecording sampleRuntime 5 healthy (.responds 500 "") recorded) = 1 ∧
      removedLoading recorded
        (processRecording sampleRuntime 5 healthy (.responds 500 "") recorded) = 1) ∧
    (appendedLoading freshPage (processRecording sampleRuntime 5 healthy healthy freshPage) = 0 ∧
      removedLoading freshPage (processRecording sampleRuntime 5 healthy healthy freshPage) =
        0) :=
  ⟨(placeholder_balance sampleRuntime 5 healthy (.rejects "Failed to fetch") (typed "hi")).1
      (by decide),
    (placeholder_balance sampleRuntime 5 healthy (.responds 500 "") recorded).2.1 (by decide)
      (by decide),
    (placeholder_balance sampleRuntime 5 healthy healthy freshPage).2.2 (Or.inl rfl)⟩

/-! ## C2: Voice echo -/

/-- C2 on the code: after a text turn whose probe failed, `lastUserMessage` still holds the
text of that turn, and in the voice turn that follows (non-empty recording, probe succeeds,
reply 200 with `text` = `hello` and `response` = `ok`) the only message appended is the
assistant message: no user message carries the transcript.  The same voice turn on a fresh
page appends the user message `hello` and then the assistant message. -/
theorem voice_echo_lost_after_failed_text :
    recordedAfterFailedText.lastUserMessage = some "hi" ∧
    (eventsSince recordedAfterFailedText
      (processRecording sampleRuntime 7 healthy
        (.responds 200 "\x7b\"text\":\"hello\",\"response\":\"ok\"\x7d")
        recordedAfterFailedText)).filter Event.isAppendMessage =
      [Event.append (Node.message "assistant" "ok" none none)] ∧
    (eventsSince recorded
      (processRecording sampleRuntime 7 healthy
        (.responds 200 "\x7b\"text\":\"hello\",\"response\":\"ok\"\x7d") recorded)).filter
        Event.isAppendMessage =
      [Event.append (Node.message "user" "hello" none none),
        Event.append (Node.message "assistant" "ok" none none)] := by
  decide

/-! ## C3: Connection status -/

/-- C3 fails as stated: after a text submission, and after a voice submission, whose probe
succeeded and whose request was rejected by the network, the status is `connected`; and in
a document without the status indicator there is no status to be `connected` after a
successful round trip. -/
theorem status_monotonicity_fails :
    connectionStatus (sendTextMessage sampleRuntime 5 healthy (.rejects "Failed to fetch")
      { freshPage with textInput := "hi" }) = some .connected ∧
    connectionStatus (processRecording sampleRuntime 5 healthy (.rejects "Failed to fetch")
      { freshPage with audioChunks := [[1]] }) = some .connected ∧
    connectionStatus (sendTextMessage sampleRuntime 5 healthy
      (.responds 200 "\x7b\"response\":\"Lights on\",\"intent\":\"device_control\"\x7d")
      { freshPage with textInput := "hi", statusIndicator := none }) = none := by
  decide

/-- C3, as the code has it. When the status elements exist in the document: the status is
`connected` after `handleResponse` has run; it is `disconnected` after a failed health
probe; and after a text submission with non-blank input, or a voice submission with a
non-empty recording, it is `disconnected` when the probe failed and `connected` when the
probe succeeded, whatever became of the request that followed. -/
theorem status_after_submission (rt : Runtime) (now : Nat) (probe reply : FetchResult)
    (s : VoiceAssistant) (he : hasStatusElements s = true) :
    (∀ data t, handleResponse rt data s = .ok t → connectionStatus t = some .connected) ∧
    (probeFails rt probe = true →
      connectionStatus (checkBackendConnection rt probe s).1 = some .disconnected) ∧
    (jsTrim s.textInput ≠ "" →
      connectionStatus (sendTextMessage rt now probe reply s) =
        some (if probeFails rt probe then .disconnected else .connected)) ∧
    (s.audioChunks.flatten ≠ [] →
      connectionStatus (processRecording rt now probe reply s) =
        some (if probeFails rt probe then .disconnected else .connected)) := by
  refine ⟨?_, ?_, ?_, ?_⟩
  · intro data t h
    exact (handleResponse_spec rt data s).2 t h he
  · intro hf
    rw [checkBackendConnection_of_fails _ _ _ hf]
    exact (connectionStatus_update "disconnected" _
      (by simpa [hasStatusElements] using he)).2.2 rfl
  · intro ht
    cases hp : probeFails rt probe with
    | true => simpa using sendTextMessage_probe_fails_status rt now probe reply s ht hp he
    | false =>
      rw [sendTextMessage_of_ok rt now probe reply s ht hp, finish_status]
      have hs := textSubmitted_status rt now s he
      simpa using (answered_spec rt reply (sendTextCatch rt) (textSubmitted rt now s)
        (sendTextCatch_herr rt)).status hs.1 hs.2
  · intro hc
    cases hp : probeFails rt probe with
    | true => simpa using processRecording_probe_fails_status rt now probe reply s hc hp he
    | false =>
      rw [processRecording_of_ok rt now probe reply s hc hp, finish_status]
      have hs := voiceSubmitted_status now s he
      simpa using (answered_spec rt reply _ (voiceSubmitted now s)
        (voiceCatch_herr rt)).status hs.1 hs.2

/-- C3 at concrete inputs: a text turn answered with status 200, and a voice turn whose probe
is rejected. -/
theorem status_after_submission_witness :
    connectionStatus (sendTextMessage sampleRuntime 5 healthy
      (.responds 200 "\x7b\"response\":\"Lights on\",\"intent\":\"device_control\"\x7d")
      (typed "turn on the lights")) = some .connected ∧
    connectionStatus (processRecording sampleRuntime 5 (.rejects "Failed to fetch") healthy
      recorded) = some .disconnected :=
  ⟨(status_after_submission sampleRuntime 5 healthy
      (.responds 200 "\x7b\"response\":\"Lights on\",\"intent\":\"device_control\"\x7d")
      (typed "turn on the lights") (by decide)).2.2.1 (by decide),
    (status_after_submission sampleRuntime 5 (.rejects "Failed to fetch") healthy recorded
      (by decide)).2.2.2 (by decide)⟩

/-! ## C4: Scenario D -/

/-- C4 fails as stated: for the reply 503 with body `{"detail": "model unavailable"}` the
text of the assistant message is the sentence of the `catch` block around the detail, which
is not the string `model unavailable`. -/
theorem scenario_d_fails :
    (eventsSince recorded
      (processRecording sampleRuntime 5 healthy
        (.responds 503 "\x7b\"detail\": \"model unavailable\"\x7d") recorded)).filter
        Event.isAppendMessage =
      [Event.append (Node.message "assistant"
        "Sorry, I encountered an error: model unavailable. Please check the console for details."
        none none)] ∧
    "Sorry, I encountered an error: model unavailable. Please check the console for details." ≠
      "model unavailable" := by
  decide

/-- C4, as the code has it. When the probe succeeds and the request returns a status outside
200-299 with body `{"detail": "model unavailable"}`, the one assistant message that a voice
submission (non-empty recording) or a text submission (non-blank input) appends has the text
`Sorry, I encountered an error: model unavailable. Please check the console for details.`:
the detail inside the sentence of the `catch` block, and no generic status string. -/
theorem scenario_d (rt : Runtime) (now : Nat) (probe : FetchResult) (status : Nat)
    (s : VoiceAssistant) (hok : probeFails rt probe = false) (hs : statusOk status = false)
    (hp : rt.jsonParse "\x7b\"detail\": \"model unavailable\"\x7d" =
      .ok (.obj [("detail", .str "model unavailable")])) :
    (s.audioChunks.flatten ≠ [] →
      (eventsSince s (processRecording rt now probe
        (.responds status "\x7b\"detail\": \"model unavailable\"\x7d") s)).filter
          Event.isAppendMessage =
        [Event.append (Node.message "assistant"
          "Sorry, I encountered an error: model unavailable. Please check the console for details."
          none none)]) ∧
    (jsTrim s.textInput ≠ "" →
      (eventsSince s (sendTextMessage rt now probe
        (.responds status "\x7b\"detail\": \"model unavailable\"\x7d") s)).filter
          Event.isAppendMessage =
        [Event.append (Node.message "user" (jsTrim s.textInput) none none),
          Event.append (Node.message "assistant"
            "Sorry, I encountered an error: model unavailable. Please check the console for details."
            none none)]) ∧
    Contains
      "Sorry, I encountered an error: model unavailable. Please check the console for details."
      "model unavailable" ∧
    ¬ Contains
      "Sorry, I encountered an error: model unavailable. Please check the console for details."
      "HTTP error! status:" := by
  have hm : httpErrorMessage rt status "\x7b\"detail\": \"model unavailable\"\x7d" =
      "model unavailable" :=
    httpErrorMessage_of_detail rt status _ _ _ hp rfl (by decide)
  refine ⟨?_, ?_, ?_, ?_⟩
  · intro hc
    rw [processRecording_not_ok_messages rt now probe status _ s hc hok hs, hm]
    rfl
  · intro ht
    rw [sendTextMessage_not_ok_messages rt now probe status _ s ht hok hs, hm]
    have : textErrorText "model unavailable" s.apiBaseUrl =
        "Sorry, I encountered an error: model unavailable. Please check the console for details." := by
      unfold textErrorText
      rw [if_neg (by decide)]
      rfl
    rw [this]
  · exact contains_mid "Sorry, I encountered an error: " "model unavailable"
      ". Please check the console for details."
  · exact wrapped_detail_not_generic

/-- C4 at concrete inputs: status 503 for a voice turn and for a text turn. -/
theorem scenario_d_witness :
    (eventsSince recorded
      (processRecording sampleRuntime 5 healthy
        (.responds 503 "\x7b\"detail\": \"model unavailable\"\x7d") recorded)).filter
        Event.isAppendMessage =
      [Event.append (Node.message "assistant"
        "Sorry, I encountered an error: model unavailable. Please check the console for details."
        none none)] ∧
    (eventsSince (typed "turn on the lights")
      (sendTextMessage sampleRuntime 5 healthy
        (.responds 503 "\x7b\"detail\": \"model unavailable\"\x7d")
        (typed "turn on the lights"))).filter Event.isAppendMessage =
      [Event.append (Node.message "user" "turn on the lights" none none),
        Event.append (Node.message "assistant"
          "Sorry, I encountered an error: model unavailable. Please check the console for details."
          none none)] :=
  ⟨(scenario_d sampleRuntime 5 healthy 503 recorded (by decide) (by decide) rfl).1
      (by decide),
    (scenario_d sampleRuntime 5 healthy 503 (typed "turn on the lights") (by decide)
      (by decide) rfl).2.1 (by decide)⟩

/-! ## C5: Error detail -/

/-- C5 fails as stated: for status 500 and the body `{"error":"x"}`, valid JSON without a
`detail`, the detail is the generic message and not the raw body, and that is what the voice
path renders. -/
theorem error_detail_raw_body_fails :
    httpErrorMessage sampleRuntime 500 "\x7b\"error\":\"x\"\x7d" = "HTTP error! status: 500" ∧
    httpErrorMessage sampleRuntime 500 "\x7b\"error\":\"x\"\x7d" ≠ "\x7b\"error\":\"x\"\x7d" ∧
    (eventsSince recorded
      (processRecording sampleRuntime 5 healthy (.responds 500 "\x7b\"error\":\"x\"\x7d")
        recorded)).filter Event.isAppendMessage =
      [Event.append (Node.message "assistant"
        "Sorry, I encountered an error: HTTP error! status: 500. Please check the console for details."
        none none)] := by
  decide

/-- C5, as the code has it. For a reply with a status `s` outside 200-299 and body `b`, the
detail of the error thrown is, in every case:
(1) when `b` parses to a value other than `null` that has a truthy `detail`: that `detail`
turned into a string as `new Error(detail)` does it, which is the `detail` itself when it is
a non-empty string; and the message of the `TypeError` when that conversion throws;
(2) when `b` does not parse as JSON, or parses to `null`: the raw text `b` when it is not
empty, the generic `HTTP error! status: s` when it is;
(3) when `b` parses to a value other than `null` without a truthy `detail`: the generic
`HTTP error! status: s`.
After a successful probe the voice path appends one assistant message, the detail inside the
sentence of its `catch` block (`Unknown error occurred` in its place when the detail is the
empty string); the text path appends the user message and one assistant message, which is
the same sentence unless the detail contains `Failed to fetch` or `NetworkError`. -/
theorem error_detail_preference (rt : Runtime) (now : Nat) (probe : FetchResult)
    (status : Nat) (body : String) (s : VoiceAssistant)
    (hok : probeFails rt probe = false) (hs : statusOk status = false) :
    (∀ j d m, rt.jsonParse body = .ok j → j.getProp "detail" = some (some d) →
      d.truthy = true → d.toStr = some m → httpErrorMessage rt status body = m) ∧
    (∀ j d, rt.jsonParse body = .ok j → j.getProp "detail" = some (some d) →
      d.truthy = true → d.toStr = none → httpErrorMessage rt status body = rt.convertMessage) ∧
    (∀ t, t ≠ "" → (Json.str t).truthy = true ∧ (Json.str t).toStr = some t) ∧
    ((rt.jsonParse body = .ok .null ∨ ∃ m, rt.jsonParse body = .error m) → body ≠ "" →
      httpErrorMessage rt status body = body) ∧
    ((rt.jsonParse body = .ok .null ∨ ∃ m, rt.jsonParse body = .error m) → body = "" →
      httpErrorMessage rt status body = "HTTP error! status: " ++ numberToString status) ∧
    (∀ j v, rt.jsonParse body = .ok j → j.getProp "detail" = some v → truthy v = false →
      httpErrorMessage rt status body = "HTTP error! status: " ++ numberToString status) ∧
    ((∃ j d, rt.jsonParse body = .ok j ∧ j.getProp "detail" = some (some d) ∧
        d.truthy = true) ∨
      (rt.jsonParse body = .ok .null ∨ ∃ m, rt.jsonParse body = .error m) ∨
      (∃ j v, rt.jsonParse body = .ok j ∧ j.getProp "detail" = some v ∧
        truthy v = false)) ∧
    (s.audioChunks.flatten ≠ [] →
      (eventsSince s (processRecording rt now probe (.responds status body) s)).filter
          Event.isAppendMessage =
        [Event.append (Node.message "assistant"
          (voiceErrorText (httpErrorMessage rt status body)) none none)]) ∧
    (jsTrim s.textInput ≠ "" →
      (eventsSince s (sendTextMessage rt now probe (.responds status body) s)).filter
          Event.isAppendMessage =
        [Event.append (Node.message "user" (jsTrim s.textInput) none none),
          Event.append (Node.message "assistant"
            (textErrorText (httpErrorMessage rt status body) s.apiBaseUrl) none none)]) ∧
    (∀ d, d ≠ "" →
      voiceErrorText d =
        "Sorry, I encountered an error: " ++ d ++ ". Please check the console for details." ∧
      (includes d "Failed to fetch" = false → includes d "NetworkError" = false →
        textErrorText d s.apiBaseUrl = voiceErrorText d)) ∧
    (voiceErrorText "" =
        "Sorry, I encountered an error: Unknown error occurred. Please check the console for details." ∧
      textErrorText "" s.apiBaseUrl = voiceErrorText "") := by
  refine ⟨?_, ?_, ?_, ?_, ?_, ?_, httpErrorMessage_cases rt body, ?_, ?_, ?_,
    errorText_of_empty _⟩
  · intro j d m hp hd ht hm
    rw [httpErrorMessage_of_truthy rt status body j d hp hd ht, hm]
    rfl
  · intro j d hp hd ht hm
    rw [httpErrorMessage_of_truthy rt status body j d hp hd ht, hm]
    rfl
  · intro t ht
    exact ⟨by simp [Json.truthy, ht], by simp [Json.toStr]⟩
  · intro hp hne
    rw [httpErrorMessage_of_raw rt status body hp, orElse_of_ne _ _ hne]
  · intro hp he
    rw [httpErrorMessage_of_raw rt status body hp, he]
    rfl
  · intro j v hp hd hv
    exact httpErrorMessage_of_falsy rt status body j v hp hd hv
  · intro hc
    exact processRecording_not_ok_messages rt now probe status body s hc hok hs
  · intro ht
    exact sendTextMessage_not_ok_messages rt now probe status body s ht hok hs
  · intro d hd
    exact ⟨voiceErrorText_of_ne d hd, fun h1 h2 => textErrorText_of_plain d _ h1 h2 hd⟩

/-- C5 at concrete inputs, on the voice path: status 503 with a string `detail`; status 500
with the number 5 as `detail`; status 422 with an array of one object as `detail`; status 400
with the empty array as `detail`. -/
theorem error_detail_preference_witness :
    ((eventsSince recorded
        (processRecording sampleRuntime 5 healthy
          (.responds 503 "\x7b\"detail\": \"model unavailable\"\x7d") recorded)).filter
          Event.isAppendMessage =
        [Event.append (Node.message "assistant"
          (voiceErrorText
            (httpErrorMessage sampleRuntime 503 "\x7b\"detail\": \"model unavailable\"\x7d"))
          none none)] ∧
      httpErrorMessage sampleRuntime 503 "\x7b\"detail\": \"model unavailable\"\x7d" =
        "model unavailable") ∧
    httpErrorMessage sampleRuntime 500 "\x7b\"detail\":5\x7d" = "5" ∧
    httpErrorMessage sampleRuntime 422
        "\x7b\"detail\":[\x7b\"msg\":\"field required\"\x7d]\x7d" =
      "[object Object]" ∧
    (httpErrorMessage sampleRuntime 400 "\x7b\"detail\":[]\x7d" = "" ∧
      (eventsSince recorded
        (processRecording sampleRuntime 5 healthy (.responds 400 "\x7b\"detail\":[]\x7d")
          recorded)).filter Event.isAppendMessage =
        [Event.append (Node.message "assistant"
          (voiceErrorText (httpErrorMessage sampleRuntime 400 "\x7b\"detail\":[]\x7d"))
          none none)]) :=
  ⟨⟨(error_detail_preference sampleRuntime 5 healthy 503
        "\x7b\"detail\": \"model unavailable\"\x7d" recorded (by decide)
        (by decide)).2.2.2.2.2.2.2.1 (by decide),
      (error_detail_preference sampleRuntime 5 healthy 503
        "\x7b\"detail\": \"model unavailable\"\x7d" recorded (by decide) (by decide)).1
        _ _ _ rfl rfl rfl rfl⟩,
    (error_detail_preference sampleRuntime 5 healthy 500 "\x7b\"detail\":5\x7d" recorded
      (by decide) (by decide)).1 _ _ _ rfl rfl rfl rfl,
    (error_detail_preference sampleRuntime 5 healthy 422
      "\x7b\"detail\":[\x7b\"msg\":\"field required\"\x7d]\x7d" recorded (by decide)
      (by decide)).1 _ _ _ rfl rfl rfl rfl,
    (error_detail_preference sampleRuntime 5 healthy 400 "\x7b\"detail\":[]\x7d" recorded
      (by decide) (by decide)).1 _ _ _ rfl rfl rfl rfl,
    (error_detail_preference sampleRuntime 5 healthy 400 "\x7b\"detail\":[]\x7d" recorded
      (by decide) (by decide)).2.2.2.2.2.2.2.1 (by decide)⟩

/-! ## C6: Gate ordering -/

/-- C6. When the health probe fails (the request rejects, the status is outside 200-299, or
the body is not JSON), a text submission with non-blank input and a voice submission with a
non-empty recording each issue one request only, the `GET` to `/health` (so none to
`/api/text/process` or `/api/voice/transcribe`), and append an assistant message whose text
contains the base URL. -/
theorem gate_ordering (rt : Runtime) (now : Nat) (probe reply : FetchResult)
    (s : VoiceAssistant) (hf : probeFails rt probe = true) :
    (jsTrim s.textInput ≠ "" →
      (eventsSince s (sendTextMessage rt now probe reply s)).filter Event.isFetch =
        [Event.fetch "GET" (s.apiBaseUrl ++ "/health")] ∧
      (eventsSince s (sendTextMessage rt now probe reply s)).filter Event.isAppendMessage =
        [Event.append (Node.message "user" (jsTrim s.textInput) none none),
          Event.append (Node.message "assistant"
            (textErrorText (unreachableMessage s.apiBaseUrl) s.apiBaseUrl) none none)] ∧
      Contains (textErrorText (unreachableMessage s.apiBaseUrl) s.apiBaseUrl) s.apiBaseUrl) ∧
    (s.audioChunks.flatten ≠ [] →
      (eventsSince s (processRecording rt now probe reply s)).filter Event.isFetch =
        [Event.fetch "GET" (s.apiBaseUrl ++ "/health")] ∧
      (eventsSince s (processRecording rt now probe reply s)).filter Event.isAppendMessage =
        [Event.append (Node.message "assistant"
          (recordingErrorText (unreachableMessage s.apiBaseUrl)) none none)] ∧
      Contains (recordingErrorText (unreachableMessage s.apiBaseUrl)) s.apiBaseUrl) := by
  constructor
  · intro ht
    rw [eventsSince_of_log _ _ _ (sendTextMessage_probe_fails_log rt now probe reply s ht hf)]
    refine ⟨?_, ?_, textErrorText_contains_base _⟩
    · simp [List.filter_append, Event.isFetch]
    · simp [List.filter_append, Event.isAppendMessage, unreachableMessage]
  · intro hc
    rw [eventsSince_of_log _ _ _ (processRecording_probe_fails_log rt now probe reply s hc hf)]
    refine ⟨?_, ?_, recordingErrorText_contains_base _⟩
    · simp [List.filter_append, Event.isFetch, map_remove_filter Event.isFetch (fun _ => rfl)]
    · simp [List.filter_append, Event.isAppendMessage,
        map_remove_filter Event.isAppendMessage (fun _ => rfl)]

/-- C6 at concrete inputs: the probe answers with status 500, for a text turn and for a voice
turn. -/
theorem gate_ordering_witness :
    ((eventsSince (typed "hi")
        (sendTextMessage sampleRuntime 5 (.responds 500 "") healthy (typed "hi"))).filter
          Event.isFetch =
        [Event.fetch "GET" "http://localhost:8000/health"] ∧
      (eventsSince (typed "hi")
        (sendTextMessage sampleRuntime 5 (.responds 500 "") healthy (typed "hi"))).filter
          Event.isAppendMessage =
        [Event.append (Node.message "user" "hi" none none),
          Event.append (Node.message "assistant"
            "Sorry, I encountered an error: Cannot reach backend at http://localhost:8000. Is the server running?. Please check the console for details."
            none none)] ∧
      Contains
        "Sorry, I encountered an error: Cannot reach backend at http://localhost:8000. Is the server running?. Please check the console for details."
        "http://localhost:8000") ∧
    ((eventsSince recorded
        (processRecording sampleRuntime 5 (.responds 500 "") healthy recorded)).filter
          Event.isFetch =
        [Event.fetch "GET" "http://localhost:8000/health"] ∧
      (eventsSince recorded
        (processRecording sampleRuntime 5 (.responds 500 "") healthy recorded)).filter
          Event.isAppendMessage =
        [Event.append (Node.message "assistant"
          "Sorry, I encountered an error processing your voice: Cannot reach backend at http://localhost:8000. Is the server running?. Please try again."
          none none)] ∧
      Contains
        "Sorry, I encountered an error processing your voice: Cannot reach backend at http://localhost:8000. Is the server running?. Please try again."
        "http://localhost:8000") :=
  ⟨(gate_ordering sampleRuntime 5 (.responds 500 "") healthy (typed "hi") (by decide)).1
      (by decide),
    (gate_ordering sampleRuntime 5 (.responds 500 "") healthy recorded (by decide)).2
      (by decide)⟩

/-! ## C7: Loading ids -/

/-- C7 fails as stated: two calls of `showLoadingMessage` at the same clock reading return
the same id. -/
theorem loading_ids_collide :
    (showLoadingMessage 1730000000000 { freshPage with textInput := "" }).2 =
      (showLoadingMessage 1730000000000
        (showLoadingMessage 1730000000000 { freshPage with textInput := "" }).1).2 := by
  decide

/-- C7, as the code has it. Two calls of `showLoadingMessage` whose clock readings differ
return distinct ids; then `removeLoadingMessage` with the id of the one, in any state, leaves
every placeholder that carries the id of the other in the conversation and, when a
placeholder with its own id is there, removes exactly that one. -/
theorem loading_ids_distinct (t1 t2 : Nat) (s1 s2 u : VoiceAssistant) (h : t1 ≠ t2) :
    (showLoadingMessage t1 s1).2 ≠ (showLoadingMessage t2 s2).2 ∧
    (removeLoadingMessage (some (showLoadingMessage t1 s1).2) u).conversation.count
        (Node.loading (showLoadingMessage t2 s2).2) =
      u.conversation.count (Node.loading (showLoadingMessage t2 s2).2) ∧
    (Node.loading (showLoadingMessage t1 s1).2 ∈ u.conversation →
      eventsSince u (removeLoadingMessage (some (showLoadingMessage t1 s1).2) u) =
        [Event.remove (Node.loading (showLoadingMessage t1 s1).2)]) := by
  simp only [showLoadingMessage_eq]
  have hne : loadingIdAt t1 ≠ loadingIdAt t2 := fun e => h ((loadingIdAt_inj t1 t2).1 e)
  refine ⟨hne, ?_, ?_⟩
  · rw [removeLoadingMessage_some_eq _ (loadingIdAt_ne_empty t1)]
    split_ifs
    · exact count_erase_loading _ _ (Ne.symm hne) _
    · rfl
  · intro hm
    rw [removeLoadingMessage_of_mem _ (loadingIdAt_ne_empty t1) _ hm]
    simp [eventsSince]

/-- C7 at concrete inputs: the clock readings 1 and 2. -/
theorem loading_ids_distinct_witness :
    (showLoadingMessage 1 freshPage).2 ≠ (showLoadingMessage 2 freshPage).2 ∧
    (removeLoadingMessage (some (showLoadingMessage 1 freshPage).2)
        (showLoadingMessage 2 (showLoadingMessage 1 freshPage).1).1).conversation.count
        (Node.loading (showLoadingMessage 2 freshPage).2) =
      (showLoadingMessage 2 (showLoadingMessage 1 freshPage).1).1.conversation.count
        (Node.loading (showLoadingMessage 2 freshPage).2) ∧
    (Node.loading (showLoadingMessage 1 freshPage).2 ∈
        (showLoadingMessage 2 (showLoadingMessage 1 freshPage).1).1.conversation →
      eventsSince (showLoadingMessage 2 (showLoadingMessage 1 freshPage).1).1
        (removeLoadingMessage (some (showLoadingMessage 1 freshPage).2)
          (showLoadingMessage 2 (showLoadingMessage 1 freshPage).1).1) =
        [Event.remove (Node.loading (showLoadingMessage 1 freshPage).2)]) :=
  loading_ids_distinct 1 2 freshPage freshPage
    (showLoadingMessage 2 (showLoadingMessage 1 freshPage).1).1 (by decide)

/-! ## C8: Echo suppression -/

/-- C8. A text submission with non-blank input appends exactly one user message, with the
trimmed input as its text, whatever the probe and the reply are: in particular when the
reply has a `2xx` status, with or without a `text` field in its body. -/
theorem echo_suppression (rt : Runtime) (now : Nat) (probe reply : FetchResult)
    (s : VoiceAssistant) (ht : jsTrim s.textInput ≠ "") :
    (eventsSince s (sendTextMessage rt now probe reply s)).filter Event.isAppendUser =
      [Event.append (Node.message "user" (jsTrim s.textInput) none none)] := by
  cases hp : probeFails rt probe with
  | true =>
    rw [eventsSince_of_log _ _ _ (sendTextMessage_probe_fails_log rt now probe reply s ht hp)]
    simp [List.filter_append, Event.isAppendUser, Node.isUser]
  | false =>
    rw [eventsSince_of_log _ _ _ (sendTextMessage_ok_log rt now probe reply s ht hp)]
    have h := answered_spec rt reply (sendTextCatch rt) (textSubmitted rt now s)
      (sendTextCatch_herr rt)
    simp [List.filter_append, Event.isAppendUser, Node.isUser, textSubmittedEvents,
      h.no_user (by simp [textSubmitted_pending rt now s ht])]

/-- C8 at a concrete input: scenario A, the reply carrying `response` and `intent`. -/
theorem echo_suppression_witness :
    (eventsSince (typed " turn on the lights ")
      (sendTextMessage sampleRuntime 5 healthy
        (.responds 200 "\x7b\"response\":\"Lights on\",\"intent\":\"device_control\"\x7d")
        (typed " turn on the lights "))).filter Event.isAppendUser =
      [Event.append (Node.message "user" "turn on the lights" none none)] :=
  echo_suppression sampleRuntime 5 healthy
    (.responds 200 "\x7b\"response\":\"Lights on\",\"intent\":\"device_control\"\x7d")
    (typed " turn on the lights ") (by decide)

/-! ## C9: Blank input -/

/-- C9. For every input that is empty or made of white space only, `sendTextMessage`
returns the state it was given: no event is logged (no message of any kind is appended, no
request is issued) and `lastUserMessage`, the status elements and the input field are as
before. -/
theorem no_silent_empty_send (rt : Runtime) (now : Nat) (probe reply : FetchResult)
    (s : VoiceAssistant) (h : ∀ c ∈ s.textInput.data, isJsWhitespace c = true) :
    sendTextMessage rt now probe reply s = s ∧
      eventsSince s (sendTextMessage rt now probe reply s) = [] := by
  have hs : sendTextMessage rt now probe reply s = s := by
    unfold sendTextMessage
    simp [jsTrim_of_blank _ h]
  rw [hs]
  exact ⟨rfl, by simp [eventsSince]⟩

/-- C9 at a concrete input: a blank, a tab and a line feed. -/
theorem no_silent_empty_send_witness :
    sendTextMessage sampleRuntime 5 healthy healthy (typed " \t\n") = typed " \t\n" ∧
      eventsSince (typed " \t\n")
        (sendTextMessage sampleRuntime 5 healthy healthy (typed " \t\n")) = [] :=
  no_silent_empty_send sampleRuntime 5 healthy healthy (typed " \t\n") (by decide)

/-! ## C10: Empty recording -/

/-- C10. When the recorded chunks assemble to a blob of length zero, `processRecording`
issues no request and appends exactly one message, an assistant message whose text contains
`No audio data recorded`. -/
theorem empty_recording (rt : Runtime) (now : Nat) (probe reply : FetchResult)
    (s : VoiceAssistant) (h : s.audioChunks.flatten = []) :
    (eventsSince s (processRecording rt now probe reply s)).filter Event.isFetch = [] ∧
    (eventsSince s (processRecording rt now probe reply s)).filter Event.isAppendMessage =
      [Event.append (Node.message "assistant"
        "Sorry, I encountered an error processing your voice: No audio data recorded. Please try again."
        none none)] ∧
    Contains
      "Sorry, I encountered an error processing your voice: No audio data recorded. Please try again."
      "No audio data recorded" := by
  have hp : processRecording rt now probe reply s =
      processRecordingCatch rt "No audio data recorded" s := by
    simp [processRecording, h]
  rw [hp, eventsSince_of_log _ _ _ (processRecordingCatch_log rt _ s)]
  refine ⟨?_, ?_, ?_⟩
  · simp [List.filter_append, map_remove_filter Event.isFetch (fun _ => rfl), Event.isFetch]
  · simp [List.filter_append, map_remove_filter Event.isAppendMessage (fun _ => rfl),
      Event.isAppendMessage]
    decide
  · exact contains_mid "Sorry, I encountered an error processing your voice: "
      "No audio data recorded" ". Please try again."

/-- C10 at a concrete input: the fresh page, on which nothing has been recorded. -/
theorem empty_recording_witness :
    (eventsSince freshPage
      (processRecording sampleRuntime 5 healthy healthy freshPage)).filter Event.isFetch = [] ∧
    (eventsSince freshPage
      (processRecording sampleRuntime 5 healthy healthy freshPage)).filter
        Event.isAppendMessage =
      [Event.append (Node.message "assistant"
        "Sorry, I encountered an error processing your voice: No audio data recorded. Please try again."
        none none)] ∧
    Contains
      "Sorry, I encountered an error processing your voice: No audio data recorded. Please try again."
      "No audio data recorded" :=
  empty_recording sampleRuntime 5 healthy healthy freshPage rfl

end VoiceAssistantApp
